import Mathlib

/-!
# Verification of the sales-metrics query engine

A shallow embedding, in Lean 4, of the dynamic query-composition engine of
the sales analytics service (Express controllers over a PostgreSQL store):

* `src/lib/utils.js`        — pagination calculator, response envelope, date guard
* `src/lib/validations.js`  — allow-list validators and the existence guard
* `src/controllers/sales-controller.js`, `user-controller.js`,
  `group-controller.js`     — query assembly, count statements, aggregate handlers

JavaScript values are modelled explicitly: machine numbers that may be `NaN`
become `JsNum`, `undefined`/missing query parameters become `Option String`,
JS truthiness of strings is `truthy`, and `parseInt`/`parseFloat`/number
printing are given as executable functions over decimal strings.  The
relational store is modelled as in-memory lists of rows; each handler returns
the HTTP status, the response fields it would serialize and the ordered trace
of queries it issued against the store.
-/

/-! ## JavaScript primitive models -/

/-- The whitespace characters that `Number.parseInt` / `Number.parseFloat`
skip before reading a number. -/
def isSpaceChar (c : Char) : Bool :=
  c == ' ' || c == '\t' || c == '\n' || c == '\r'

/-- Numeric value of a decimal digit character. -/
def digitVal (c : Char) : Nat := c.toNat - '0'.toNat

/-- Value of a list of decimal digit characters, most significant first. -/
def digitsToNatFrom (a : Nat) (ds : List Char) : Nat :=
  ds.foldl (fun acc c => acc * 10 + digitVal c) a

/-- Value of a list of decimal digit characters. -/
def digitsToNat (ds : List Char) : Nat := digitsToNatFrom 0 ds

/-- Longest decimal-digit prefix, as `Number.parseInt(s, 10)` reads it:
`none` when there is no digit at all (JS `NaN`). -/
def parseDigitsPrefix (cs : List Char) : Option Nat :=
  let ds := cs.takeWhile Char.isDigit
  if ds.isEmpty then none else some (digitsToNat ds)

/-- Model of `Number.parseInt(s, 10)`: skip whitespace, optional sign, then
the longest decimal-digit prefix (trailing junk ignored); `none` is JS `NaN`. -/
def jsParseInt (s : String) : Option Int :=
  match s.data.dropWhile isSpaceChar with
  | [] => none
  | c :: rest =>
    if c == '-' then (parseDigitsPrefix rest).map (fun n => -(n : Int))
    else if c == '+' then (parseDigitsPrefix rest).map (fun n => (n : Int))
    else (parseDigitsPrefix (c :: rest)).map (fun n => (n : Int))

/-- `Number.parseInt` applied to a possibly-undefined value: an absent value
parses to `NaN` (`none`). -/
def jsParseIntOpt (s : Option String) : Option Int := s.bind jsParseInt

/-- JS `x || d` on a number `x` that may be `NaN` (`none`) — `NaN` and `0`
are falsy, every other number is kept. -/
def jsOrI (x : Option Int) (d : Int) : Int :=
  match x with
  | none => d
  | some v => if v = 0 then d else v

/-- JS truthiness of a possibly-undefined string: `undefined` and `""` are
falsy, every other string is truthy. -/
def truthy : Option String → Bool
  | none => false
  | some s => !s.isEmpty

/-- A JS machine number that may be `NaN` (values here are rationals: the
engine only manipulates decimal amounts and integers). -/
inductive JsNum where
  | nan : JsNum
  | val (q : ℚ) : JsNum
deriving DecidableEq

/-- Model of `Number.parseFloat(s)` on plain decimal literals: skip
whitespace, optional sign, integer digits and an optional fraction part;
`nan` when no digit is read at all (trailing junk is ignored, as in JS). -/
def jsParseFloat (s : String) : JsNum :=
  let cs := s.data.dropWhile isSpaceChar
  let signAndRest : ℚ × List Char :=
    match cs with
    | '-' :: t => (-1, t)
    | '+' :: t => (1, t)
    | t => (1, t)
  let sgn := signAndRest.1
  let rest := signAndRest.2
  let ip := rest.takeWhile Char.isDigit
  let afterInt := rest.drop ip.length
  let fp : List Char :=
    match afterInt with
    | '.' :: t => t.takeWhile Char.isDigit
    | _ => []
  if ip.isEmpty && fp.isEmpty then JsNum.nan
  else JsNum.val (sgn * ((digitsToNat ip : ℚ) + (digitsToNat fp : ℚ) / (10 : ℚ) ^ fp.length))

/-- Decimal digits, fuel-driven worker (`fuel > n` always suffices: the
argument shrinks by a factor of ten per step). -/
def natDigitsAux : Nat → Nat → List Char → List Char
  | 0, _, acc => acc
  | fuel + 1, n, acc =>
    if n < 10 then Nat.digitChar n :: acc
    else natDigitsAux fuel (n / 10) (Nat.digitChar (n % 10) :: acc)

/-- Decimal digits of a natural number, most significant first, prepended to
`acc` (models JS number-to-string conversion for integers). -/
def natDigits (n : Nat) (acc : List Char) : List Char := natDigitsAux (n + 1) n acc

/-- JS string conversion of a non-negative integer. -/
def jsNatToString (n : Nat) : String := String.mk (natDigits n [])

/-- JS string conversion of an integer (template-literal interpolation of a
JS integer number). -/
def jsIntToString (i : Int) : String :=
  if i < 0 then "-" ++ jsNatToString (-i).toNat else jsNatToString i.toNat

/-- Model of `Math.ceil(a / b)` on integer operands with a nonzero divisor:
the exact rational quotient rounded toward positive infinity. -/
def jsMathCeilDiv (a b : Int) : Int := -((-a).fdiv b)

/-! ## Calendar arithmetic (used to model `DATE_TRUNC` buckets) -/

/-- Gregorian leap year. -/
def isLeapYear (y : Nat) : Bool :=
  y % 4 == 0 && (y % 100 != 0 || y % 400 == 0)

/-- Days in a Gregorian month (month is 1-based). -/
def daysInMonth (y m : Nat) : Nat :=
  if m == 2 then (if isLeapYear y then 29 else 28)
  else if m == 4 || m == 6 || m == 9 || m == 11 then 30
  else 31

/-- Days from 1970-01-01 to year `y`, month `m`, day `d` (civil calendar,
Howard Hinnant's algorithm, restricted to years ≥ 1600 which covers every
date this service handles). -/
def daysFromCivil (y m d : Int) : Int :=
  let y' := if m <= 2 then y - 1 else y
  let era := y'.fdiv 400
  let yoe := y' - era * 400
  let mp := (m + 9).emod 12
  let doy := (153 * mp + 2).fdiv 5 + d - 1
  let doe := yoe * 365 + yoe.fdiv 4 - yoe.fdiv 100 + doy
  era * 146097 + doe - 719468

/-- Day of week with Monday = 0 (1970-01-01 was a Thursday). -/
def dowMonday0 (days : Int) : Int := (days + 3).emod 7

/-! ## String helpers for statement-text properties -/

/-- Whether `pat` occurs as a contiguous substring of `s` (over `.data`). -/
def hasSubList (pat : List Char) : List Char → Bool
  | [] => pat.isEmpty
  | c :: rest => pat.isPrefixOf (c :: rest) || hasSubList pat rest

/-- Whether `pat` occurs as a contiguous substring of `s`. -/
def hasSubstring (pat s : String) : Bool := hasSubList pat.data s.data

/-- Whether `s` ends with `suffix`. -/
def strEndsWith (s suf : String) : Bool := suf.data.isSuffixOf s.data

/-- The positional placeholder token `$n` of the store's statement syntax. -/
def placeholder (n : Nat) : String := "$" ++ toString n

/-- `String.prototype.toLowerCase()` on the ASCII identifiers this service
compares (character-wise lowercasing). -/
def toLowerStr (s : String) : String := String.mk (s.data.map Char.toLower)

/-! ## Date guard (`parseDate` in `src/lib/utils.js`)

`parseDate` delegates validity to the host's `new Date(dateStr)` call.
`newDateValid` models that platform parser on the input classes the service
sees: ISO `YYYY-MM-DD` dates (validated with real month lengths, as V8 does
for ISO input) and legacy long-form dates such as `March 1, 2021`
(month name matched case-insensitively).  Everything else is invalid. -/

/-- The twelve month names recognized by the legacy JS date parser, paired
with their 1-based month numbers (compared lowercased). -/
def monthNames : List (String × Nat) :=
  [("january", 1), ("february", 2), ("march", 3), ("april", 4),
   ("may", 5), ("june", 6), ("july", 7), ("august", 8),
   ("september", 9), ("october", 10), ("november", 11), ("december", 12)]

/-- Validity of an ISO `YYYY-MM-DD` date string. -/
def isoDateValid (s : String) : Bool :=
  match s.data with
  | [y1, y2, y3, y4, '-', m1, m2, '-', d1, d2] =>
    let digits := [y1, y2, y3, y4, m1, m2, d1, d2].all Char.isDigit
    let y := digitsToNat [y1, y2, y3, y4]
    let m := digitsToNat [m1, m2]
    let d := digitsToNat [d1, d2]
    digits && 1 ≤ m && m ≤ 12 && 1 ≤ d && d ≤ daysInMonth y m
  | _ => false

/-- Split a character list on spaces (the behavior of `splitOn " "` on the
strings considered, computable in the kernel). -/
def splitOnSpaceAux : List Char → List Char → List (List Char)
  | [], cur => [cur.reverse]
  | c :: rest, cur =>
    if c == ' ' then cur.reverse :: splitOnSpaceAux rest []
    else splitOnSpaceAux rest (c :: cur)

/-- Validity of a legacy long-form date string `<Month> <d>, <yyyy>`. -/
def longDateValid (s : String) : Bool :=
  match (splitOnSpaceAux s.data []).map (fun l => String.mk l) with
  | [mon, dayComma, year] =>
    match (monthNames.lookup (toLowerStr mon), dayComma.data.reverse) with
    | (some m, ',' :: dayRev) =>
      let dayDs := dayRev.reverse
      let yearDs := year.data
      dayDs.all Char.isDigit && !dayDs.isEmpty && dayDs.length ≤ 2 &&
        yearDs.all Char.isDigit && yearDs.length == 4 &&
        1 ≤ digitsToNat dayDs && digitsToNat dayDs ≤ daysInMonth (digitsToNat yearDs) m
    | _ => false
  | _ => false

/-- Model of the host `new Date(s)` validity check (`!Number.isNaN(date.getTime())`)
on the modelled input classes. -/
def newDateValid (s : String) : Bool := isoDateValid s || longDateValid s

/-- `parseDate(dateStr, fallback)` from `src/lib/utils.js`: return the raw
input string unchanged when `new Date(dateStr)` yields a valid date, the
fallback otherwise (an absent input always yields the fallback, since
`new Date(undefined)` is an Invalid Date). -/
def parseDate (dateStr : Option String) (fallback : Option String) : Option String :=
  match dateStr with
  | none => fallback
  | some s => if newDateValid s then some s else fallback

/-! ## Allow-list validators (`src/lib/validations.js`) -/

/-- `validateSortColumn(sortBy, validColumns, defaultColumn)`:
`sortBy && validColumns.includes(sortBy) ? sortBy : defaultColumn`. -/
def validateSortColumn (sortBy : Option String) (validColumns : List String)
    (defaultColumn : String) : String :=
  match sortBy with
  | some s => if !s.isEmpty && validColumns.contains s then s else defaultColumn
  | none => defaultColumn

/-- `validateSortOrder(sortOrder, defaultOrder)`: the candidate is lowercased
before the allow-list test and the lowercased form is what is returned. -/
def validateSortOrder (sortOrder : Option String) (defaultOrder : String) : String :=
  match sortOrder with
  | some s =>
    if !s.isEmpty && ["asc", "desc"].contains (toLowerStr s) then toLowerStr s
    else defaultOrder
  | none => defaultOrder

/-- `validateInterval(interval, defaultInterval)`: case-sensitive membership
in the fixed granularity list. -/
def validateInterval (interval : Option String) (defaultInterval : String) : String :=
  match interval with
  | some s =>
    if !s.isEmpty && ["day", "week", "month", "quarter", "year"].contains s then s
    else defaultInterval
  | none => defaultInterval

/-- The message `validateResourceExists` throws for table `table`:
`table.charAt(0).toUpperCase() + table.slice(1, -1) + " not found"`. -/
def notFoundMessage (table : String) : String :=
  match table.data with
  | [] => " not found"
  | c :: rest => String.mk (c.toUpper :: rest.dropLast) ++ " not found"

/-! ## Pagination calculator and response envelope (`src/lib/utils.js`) -/

/-- The `(limit, offset, page)` triple produced by `getPaginationParams`. -/
structure PaginationParams where
  limit : Int
  offset : Int
  page : Int
deriving DecidableEq

/-- `getPaginationParams(page, limit)`:
`parsedPage = Number.parseInt(page, 10) || 1`,
`parsedLimit = Number.parseInt(limit, 10) || 100`,
`offset = (parsedPage - 1) * parsedLimit`. -/
def getPaginationParams (page limitRaw : Option String) : PaginationParams :=
  let parsedPage := jsOrI (jsParseIntOpt page) 1
  let parsedLimit := jsOrI (jsParseIntOpt limitRaw) 100
  { limit := parsedLimit, offset := (parsedPage - 1) * parsedLimit, page := parsedPage }

/-- The HATEOAS links block of `formatPaginatedResponse` (`next`/`prev` are
`null` — `none` — when absent; `self`/`first`/`last` are always emitted). -/
structure Links where
  self : String
  first : String
  last : String
  next : Option String
  prev : Option String
deriving DecidableEq

/-- The `meta.pagination` block. -/
structure PageMeta where
  page : Int
  limit : Int
  total : Int
  pages : Int
deriving DecidableEq

/-- A `baseUrl?page=..&limit=..` pagination URL as the template literals in
`formatPaginatedResponse` render it. -/
def pageUrl (baseUrl : String) (page limitV : Int) : String :=
  baseUrl ++ "?page=" ++ jsIntToString page ++ "&limit=" ++ jsIntToString limitV

/-- The full envelope `{ data, meta: { pagination, ...additionalMeta }, links }`. -/
structure PaginatedResponse (α β : Type) where
  data : α
  pagePagination : PageMeta
  additionalMeta : β
  links : Links

/-- `formatPaginatedResponse(data, pagination, total, baseUrl, additionalMeta)`
from `src/lib/utils.js`.  `totalPages = Math.ceil(total / pagination.limit)`;
`next` iff `page < totalPages`, `prev` iff `page > 1`; `first` always points
at page 1 and `last` always at page `totalPages`. -/
def formatPaginatedResponse {α β : Type} (data : α) (pagination : PaginationParams)
    (total : Int) (baseUrl : String) (additionalMeta : β) : PaginatedResponse α β :=
  let totalPages := jsMathCeilDiv total pagination.limit
  { data := data
    pagePagination :=
      { page := pagination.page, limit := pagination.limit, total := total, pages := totalPages }
    additionalMeta := additionalMeta
    links :=
      { self := pageUrl baseUrl pagination.page pagination.limit
        first := pageUrl baseUrl 1 pagination.limit
        last := pageUrl baseUrl totalPages pagination.limit
        next := if pagination.page < totalPages then
            some (pageUrl baseUrl (pagination.page + 1) pagination.limit) else none
        prev := if pagination.page > 1 then
            some (pageUrl baseUrl (pagination.page - 1) pagination.limit) else none } }

/-! ## Bound parameter values and the condition builder -/

/-- A value bound into a parameterized statement: a raw string (dates, path
ids, roles), a JS number that may be `NaN` (amount bounds), or an integer
(pagination). -/
inductive Val where
  | vstr (s : String)
  | vnum (n : JsNum)
  | vint (i : Int)
deriving DecidableEq

/-- The mutable `conditions` / `queryParams` / `paramIndex` triple every
controller threads while assembling its WHERE clause. -/
structure CondBuilder where
  conditions : List String
  queryParams : List Val
  paramIndex : Nat
deriving DecidableEq

/-- One `conditions.push(...); queryParams.push(...); paramIndex++` step:
the fragment is rendered at the current `paramIndex`. -/
def CondBuilder.push (b : CondBuilder) (mk : Nat → String) (v : Val) : CondBuilder :=
  { conditions := b.conditions ++ [mk b.paramIndex]
    queryParams := b.queryParams ++ [v]
    paramIndex := b.paramIndex + 1 }

/-- An `if (<stringy filter>) { push }` block — guarded by JS truthiness of
the optional string. -/
def pushIfStr (b : CondBuilder) (o : Option String) (mk : Nat → String) : CondBuilder :=
  match o with
  | some s => if s.isEmpty then b else b.push mk (Val.vstr s)
  | none => b

/-- An `if (<parsed amount> !== null) { push }` block — the parsed value may
be `NaN` and is still pushed (only `null` is skipped). -/
def pushIfNum (b : CondBuilder) (o : Option JsNum) (mk : Nat → String) : CondBuilder :=
  match o with
  | some n => b.push mk (Val.vnum n)
  | none => b

/-- `buildWhereClause(conditions)` from `src/lib/utils.js` (the controllers
inline the same expression): empty when no fragment was added. -/
def buildWhereClause (conditions : List String) : String :=
  if conditions.length > 0 then " WHERE " ++ String.intercalate " AND " conditions else ""

/-- The parameter value a truthy optional string filter appends (used by the
trends/role statements that push outside the condition builder). -/
def optParamStr (o : Option String) : List Val :=
  match o with
  | some s => if s.isEmpty then [] else [Val.vstr s]
  | none => []

/-- Everything a listing endpoint assembles: the shared condition list, the
filter parameters as bound in the WHERE clause, the final `paramIndex`, the
listing statement and its parameters (with `LIMIT`/`OFFSET` appended), and
the count statement with its `queryParams.slice(0, paramIndex - 1)` list. -/
structure BuiltStatements where
  conditions : List String
  filterParams : List Val
  paramIndex : Nat
  query : String
  listParams : List Val
  countQuery : String
  countParams : List Val
deriving DecidableEq

/-- The condition-builder state of `listSales` after its five optional
filter blocks and the conditional group-join block ran, in source order. -/
def listSalesBuilder (validStartDate validEndDate userId : Option String)
    (validMinAmount validMaxAmount : Option JsNum) (groupId : Option String) : CondBuilder :=
  let b0 : CondBuilder := ⟨[], [], 1⟩
  let b1 := pushIfStr b0 validStartDate (fun i => "s.date >= " ++ placeholder i)
  let b2 := pushIfStr b1 validEndDate (fun i => "s.date <= " ++ placeholder i)
  let b3 := pushIfStr b2 userId (fun i => "s.user_id = " ++ placeholder i)
  let b4 := pushIfNum b3 validMinAmount (fun i => "s.amount >= " ++ placeholder i)
  let b5 := pushIfNum b4 validMaxAmount (fun i => "s.amount <= " ++ placeholder i)
  pushIfStr b5 groupId (fun i => "ug.group_id = " ++ placeholder i)

/-- Statement assembly of `listSales` (`src/controllers/sales-controller.js`
lines 57–140), starting from the already-validated filter values. -/
def listSalesStmts (validStartDate validEndDate userId : Option String)
    (validMinAmount validMaxAmount : Option JsNum) (groupId : Option String)
    (validSortBy validSortOrder : String) (pagination : PaginationParams) :
    BuiltStatements :=
  let baseQuery :=
    "SELECT s.id, s.user_id, u.name as user_name, s.amount, s.date FROM sales s JOIN users u ON s.user_id = u.id"
  let withJoin :=
    if truthy groupId then baseQuery ++ " JOIN user_groups ug ON s.user_id = ug.user_id"
    else baseQuery
  let b6 := listSalesBuilder validStartDate validEndDate userId
    validMinAmount validMaxAmount groupId
  let ordered := withJoin ++ buildWhereClause b6.conditions
    ++ " ORDER BY s." ++ validSortBy ++ " " ++ validSortOrder
  let query := ordered ++ " LIMIT " ++ placeholder b6.paramIndex
    ++ " OFFSET " ++ placeholder (b6.paramIndex + 1)
  let listParams := b6.queryParams ++ [Val.vint pagination.limit, Val.vint pagination.offset]
  let countBase := "SELECT COUNT(*) FROM sales s"
  let countJoin :=
    if truthy groupId then countBase ++ " JOIN user_groups ug ON s.user_id = ug.user_id"
    else countBase
  let countQuery := countJoin ++ buildWhereClause b6.conditions
  { conditions := b6.conditions
    filterParams := b6.queryParams
    paramIndex := b6.paramIndex
    query := query
    listParams := listParams
    countQuery := countQuery
    countParams := listParams.take (b6.paramIndex - 1) }

/-- The condition-builder state of `getUserSales`: seeded with the bound
`user_id = $1` fragment, then the optional date blocks in source order. -/
def userSalesBuilder (userId : Int) (validStartDate validEndDate : Option String) :
    CondBuilder :=
  let b0 : CondBuilder := ⟨["user_id = $1"], [Val.vint userId], 2⟩
  let b1 := pushIfStr b0 validStartDate (fun i => "date >= " ++ placeholder i)
  pushIfStr b1 validEndDate (fun i => "date <= " ++ placeholder i)

/-- Statement assembly of `getUserSales` (`src/controllers/user-controller.js`
lines 50–93). -/
def userSalesStmts (userId : Int) (validStartDate validEndDate : Option String)
    (validSortBy validSortOrder : String) (pagination : PaginationParams) :
    BuiltStatements :=
  let b2 := userSalesBuilder userId validStartDate validEndDate
  let query := "SELECT id, amount, date FROM sales WHERE "
    ++ String.intercalate " AND " b2.conditions
    ++ " ORDER BY " ++ validSortBy ++ " " ++ validSortOrder
    ++ " LIMIT " ++ placeholder b2.paramIndex ++ " OFFSET " ++ placeholder (b2.paramIndex + 1)
  let listParams := b2.queryParams ++ [Val.vint pagination.limit, Val.vint pagination.offset]
  let countQuery := "SELECT COUNT(*) FROM sales WHERE "
    ++ String.intercalate " AND " b2.conditions
  { conditions := b2.conditions
    filterParams := b2.queryParams
    paramIndex := b2.paramIndex
    query := query
    listParams := listParams
    countQuery := countQuery
    countParams := listParams.take (b2.paramIndex - 1) }

/-- The condition-builder state of `getGroupSales`: seeded with the bound
`ug.group_id = $1` fragment, then optional dates and userId in source order. -/
def groupSalesBuilder (groupId : Int) (validStartDate validEndDate userId : Option String) :
    CondBuilder :=
  let b0 : CondBuilder := ⟨["ug.group_id = $1"], [Val.vint groupId], 2⟩
  let b1 := pushIfStr b0 validStartDate (fun i => "s.date >= " ++ placeholder i)
  let b2 := pushIfStr b1 validEndDate (fun i => "s.date <= " ++ placeholder i)
  pushIfStr b2 userId (fun i => "s.user_id = " ++ placeholder i)

/-- Statement assembly of `getGroupSales` (`src/controllers/group-controller.js`
lines 143–216). -/
def groupSalesStmts (groupId : Int) (validStartDate validEndDate userId : Option String)
    (validSortBy validSortOrder : String) (pagination : PaginationParams) :
    BuiltStatements :=
  let b3 := groupSalesBuilder groupId validStartDate validEndDate userId
  let query :=
    "SELECT s.id, s.user_id, u.name as user_name, s.amount, s.date FROM sales s JOIN user_groups ug ON s.user_id = ug.user_id JOIN users u ON s.user_id = u.id WHERE "
    ++ String.intercalate " AND " b3.conditions
    ++ " ORDER BY s." ++ validSortBy ++ " " ++ validSortOrder
    ++ " LIMIT " ++ placeholder b3.paramIndex ++ " OFFSET " ++ placeholder (b3.paramIndex + 1)
  let listParams := b3.queryParams ++ [Val.vint pagination.limit, Val.vint pagination.offset]
  let countQuery :=
    "SELECT COUNT(*) FROM sales s JOIN user_groups ug ON s.user_id = ug.user_id WHERE "
    ++ String.intercalate " AND " b3.conditions
  { conditions := b3.conditions
    filterParams := b3.queryParams
    paramIndex := b3.paramIndex
    query := query
    listParams := listParams
    countQuery := countQuery
    countParams := listParams.take (b3.paramIndex - 1) }

/-- The condition-builder state of `getGroupUsers`: seeded with
`ug.group_id = $1`, then the optional role block. -/
def groupUsersBuilder (groupId : Int) (role : Option String) : CondBuilder :=
  let b0 : CondBuilder := ⟨["ug.group_id = $1"], [Val.vint groupId], 2⟩
  pushIfStr b0 role (fun i => "u.role = " ++ placeholder i)

/-- Statement assembly of `getGroupUsers` (`src/controllers/group-controller.js`
lines 30–104). -/
def groupUsersStmts (groupId : Int) (role : Option String)
    (validSortBy validSortOrder : String) (pagination : PaginationParams) :
    BuiltStatements :=
  let b1 := groupUsersBuilder groupId role
  let query :=
    "SELECT u.id, u.name, u.role FROM users u JOIN user_groups ug ON u.id = ug.user_id WHERE "
    ++ String.intercalate " AND " b1.conditions
    ++ " ORDER BY u." ++ validSortBy ++ " " ++ validSortOrder
    ++ " LIMIT " ++ placeholder b1.paramIndex ++ " OFFSET " ++ placeholder (b1.paramIndex + 1)
  let listParams := b1.queryParams ++ [Val.vint pagination.limit, Val.vint pagination.offset]
  let countQuery :=
    "SELECT COUNT(*) FROM users u JOIN user_groups ug ON u.id = ug.user_id WHERE "
    ++ String.intercalate " AND " b1.conditions
  { conditions := b1.conditions
    filterParams := b1.queryParams
    paramIndex := b1.paramIndex
    query := query
    listParams := listParams
    countQuery := countQuery
    countParams := listParams.take (b1.paramIndex - 1) }

/-! ## The all-users performance trends statement (`getAllUsersPerformance`)

In the source, the group-filter fragment of the trends statement is written as
`${groupId ? " AND ug.group_id = $${role ? 5 : 4}" : ""}` inside a template
literal.  The inner `${role ? 5 : 4}` sits inside a plain double-quoted JS
string, where `${...}` has no meaning, so the characters
`$` `$` `\x7b` `role ? 5 : 4` `\x7d` are emitted literally into the SQL text
instead of a `$5`/`$4` placeholder. -/

/-- The trends statement text of `getAllUsersPerformance`
(`src/controllers/user-controller.js` lines 481–504). -/
def allUsersTrendsQuery (role groupId : Option String) : String :=
  "SELECT DATE_TRUNC($1, s.date) AS time_period, COUNT(s.id) AS sales_count, SUM(s.amount) AS total_revenue, AVG(s.amount) AS average_revenue, COUNT(DISTINCT s.user_id) AS active_users FROM sales s JOIN users u ON s.user_id = u.id"
  ++ (if truthy groupId then " JOIN user_groups ug ON s.user_id = ug.user_id" else "")
  ++ " WHERE s.date BETWEEN $2 AND $3"
  ++ (if truthy role then " AND u.role = $4" else "")
  ++ (if truthy groupId then " AND ug.group_id = $$\x7brole ? 5 : 4\x7d" else "")
  ++ " GROUP BY DATE_TRUNC($1, s.date) ORDER BY time_period"

/-- The parameter list bound with the trends statement:
`[validInterval, validStartDate, validEndDate]`, then `role` and `groupId`
pushed when truthy. -/
def allUsersTrendsParams (validInterval validStartDate validEndDate : String)
    (role groupId : Option String) : List Val :=
  [Val.vstr validInterval, Val.vstr validStartDate, Val.vstr validEndDate]
  ++ optParamStr role ++ optParamStr groupId

/-! ## The relational store

The store is an external collaborator (`execute(statementText, boundValues)`);
it is modelled as in-memory lists of rows plus executable evaluators for the
statements the engine issues.  Dates are ISO `YYYY-MM-DD` strings, which
PostgreSQL's date ordering makes lexicographic. -/

/-- A `users` row. -/
structure User where
  id : Int
  name : String
  role : String
deriving DecidableEq

/-- A `groups` row. -/
structure GroupRow where
  id : Int
  name : String
deriving DecidableEq

/-- A `sales` row. -/
structure Sale where
  id : Int
  user_id : Int
  amount : ℚ
  date : String
deriving DecidableEq

/-- The whole store: `user_groups` is the membership join table as
`(user_id, group_id)` pairs. -/
structure Db where
  users : List User
  groups : List GroupRow
  user_groups : List (Int × Int)
  sales : List Sale

/-- Lexicographic comparison of character lists (PostgreSQL date order on
canonical ISO strings). -/
def charListLe : List Char → List Char → Bool
  | [], _ => true
  | _ :: _, [] => false
  | a :: as, b :: bs => if a == b then charListLe as bs else Nat.blt a.toNat b.toNat

/-- `a <= b` on ISO date strings. -/
def dateLe (a b : String) : Bool := charListLe a.data b.data

/-- `date >= bound` for an optional lower bound (absent bound matches all). -/
def dateGeOpt (bound : Option String) (d : String) : Bool :=
  match bound with
  | some x => dateLe x d
  | none => true

/-- `date <= bound` for an optional upper bound. -/
def dateLeOpt (bound : Option String) (d : String) : Bool :=
  match bound with
  | some x => dateLe d x
  | none => true

/-- PostgreSQL numeric `x >= bound` where the bound may be `NaN`: PG orders
`NaN` above every ordinary number, so `x >= NaN` is false for the amounts in
the store and `x <= NaN` is true. -/
def pgGeNum (x : ℚ) (b : JsNum) : Bool :=
  match b with
  | JsNum.nan => false
  | JsNum.val q => decide (q ≤ x)

/-- PostgreSQL numeric `x <= bound` with a possibly-`NaN` bound. -/
def pgLeNum (x : ℚ) (b : JsNum) : Bool :=
  match b with
  | JsNum.nan => true
  | JsNum.val q => decide (x ≤ q)

/-- Optional-bound variant of `pgGeNum` (absent filter matches all rows). -/
def pgGeOpt (bound : Option JsNum) (x : ℚ) : Bool :=
  match bound with
  | some b => pgGeNum x b
  | none => true

/-- Optional-bound variant of `pgLeNum`. -/
def pgLeOpt (bound : Option JsNum) (x : ℚ) : Bool :=
  match bound with
  | some b => pgLeNum x b
  | none => true

/-- Insert into a sorted list (the store's ORDER BY; order among ties is a
fixed arbitrary choice, as in the store). -/
def insertLe {α : Type} (le : α → α → Bool) (x : α) : List α → List α
  | [] => [x]
  | y :: ys => if le x y then x :: y :: ys else y :: insertLe le x ys

/-- Insertion sort by a boolean `le`. -/
def sortByLe {α : Type} (le : α → α → Bool) : List α → List α
  | [] => []
  | x :: xs => insertLe le x (sortByLe le xs)

/-- `LIMIT l OFFSET o` applied to an ordered row list. -/
def applyLimitOffset {α : Type} (limitV offset : Int) (xs : List α) : List α :=
  (xs.drop offset.toNat).take limitV.toNat

/-- `ORDER BY <col> <dir>` comparison on sales rows
(`col ∈ {date, amount, user_id}`, the allow-listed sort columns). -/
def saleColLe (col : String) (a b : Sale) : Bool :=
  if col == "amount" then decide (a.amount ≤ b.amount)
  else if col == "user_id" then decide (a.user_id ≤ b.user_id)
  else dateLe a.date b.date

/-- Sales ordered by the validated sort column and direction. -/
def orderSales (col dir : String) (xs : List Sale) : List Sale :=
  if dir == "asc" then sortByLe (saleColLe col) xs
  else sortByLe (fun a b => saleColLe col b a) xs

/-- Whether `uid` is a member of group `gid` (the `user_groups` join). -/
def inGroup (db : Db) (uid gid : Int) : Bool :=
  db.user_groups.any (fun p => p.1 == uid && p.2 == gid)

/-- Rows of `SELECT ... FROM sales WHERE user_id = $1 [AND date >= ..]
[AND date <= ..]` — the `getUserSales` filter. -/
def userSalesMatches (db : Db) (uid : Int) (sd ed : Option String) : List Sale :=
  db.sales.filter fun s =>
    s.user_id == uid && dateGeOpt sd s.date && dateLeOpt ed s.date

/-- Sales of members of group `gid` within the optional date window. -/
def groupSalesMatches (db : Db) (gid : Int) (sd ed : Option String) : List Sale :=
  db.sales.filter fun s =>
    inGroup db s.user_id gid && dateGeOpt sd s.date && dateLeOpt ed s.date

/-! ## JSON values (the bodies handed to `res.json`) -/

/-- A JSON value. -/
inductive Json where
  | null : Json
  | jstr (s : String) : Json
  | jint (i : Int) : Json
  | jrat (q : ℚ) : Json
  | jarr (xs : List Json) : Json
  | jobj (fields : List (String × Json)) : Json

/-- Sum of a list of amounts. -/
def sumQ (xs : List ℚ) : ℚ := xs.foldl (fun a b => a + b) 0

/-- Minimum of a list of amounts (`none` on no rows — SQL `MIN` is null). -/
def minQ : List ℚ → Option ℚ
  | [] => none
  | x :: xs =>
    match minQ xs with
    | none => some x
    | some m => some (if x ≤ m then x else m)

/-- Maximum of a list of amounts (`none` on no rows — SQL `MAX` is null). -/
def maxQ : List ℚ → Option ℚ
  | [] => none
  | x :: xs =>
    match maxQ xs with
    | none => some x
    | some m => some (if m ≤ x then x else m)

/-- `SUM(amount)` as JSON: SQL sum over zero rows is null, never 0. -/
def sumJson (xs : List ℚ) : Json :=
  if xs.isEmpty then Json.null else Json.jrat (sumQ xs)

/-- `AVG(amount)` as JSON: null over zero rows. -/
def avgJson (xs : List ℚ) : Json :=
  if xs.isEmpty then Json.null else Json.jrat (sumQ xs / (xs.length : ℚ))

/-- `MIN(amount)` / `MAX(amount)` as JSON. -/
def optQJson : Option ℚ → Json
  | none => Json.null
  | some q => Json.jrat q

/-- The scalar summary row
`COUNT(*), SUM(amount), AVG(amount), MIN(amount), MAX(amount)` used by the
user summary/performance statements. -/
def summaryRowJson (amounts : List ℚ) : Json :=
  Json.jobj
    [("total_sales", Json.jint amounts.length),
     ("total_revenue", sumJson amounts),
     ("average_sale_amount", avgJson amounts),
     ("min_sale_amount", optQJson (minQ amounts)),
     ("max_sale_amount", optQJson (maxQ amounts))]

/-- Group rows by a key, first-occurrence order. -/
def groupByKey {α κ : Type} [BEq κ] (key : α → κ) (xs : List α) : List (κ × List α) :=
  xs.foldl
    (fun acc x =>
      let k := key x
      if acc.any (fun p => p.1 == k) then
        acc.map (fun p => if p.1 == k then (p.1, p.2 ++ [x]) else p)
      else acc ++ [(k, [x])])
    []

/-! ## `DATE_TRUNC` buckets -/

/-- Two-digit zero padding. -/
def pad2 (n : Nat) : String :=
  if n < 10 then "0" ++ jsNatToString n else jsNatToString n

/-- Canonical ISO rendering of a year/month/day triple. -/
def isoOfYMD (y m d : Nat) : String :=
  jsNatToString y ++ "-" ++ pad2 m ++ "-" ++ pad2 d

/-- Parse a canonical ISO `YYYY-MM-DD` string. -/
def parseIsoDate (s : String) : Option (Nat × Nat × Nat) :=
  match s.data with
  | [y1, y2, y3, y4, '-', m1, m2, '-', d1, d2] =>
    if [y1, y2, y3, y4, m1, m2, d1, d2].all Char.isDigit then
      some (digitsToNat [y1, y2, y3, y4], digitsToNat [m1, m2], digitsToNat [d1, d2])
    else none
  | _ => none

/-- Inverse of `daysFromCivil` (civil calendar from day count). -/
def civilFromDays (z : Int) : Int × Int × Int :=
  let z' := z + 719468
  let era := z'.fdiv 146097
  let doe := z' - era * 146097
  let yoe := (doe - doe.fdiv 1460 + doe.fdiv 36524 - doe.fdiv 146096).fdiv 365
  let y := yoe + era * 400
  let doy := doe - (365 * yoe + yoe.fdiv 4 - yoe.fdiv 100)
  let mp := (5 * doy + 2).fdiv 153
  let d := doy - (153 * mp + 2).fdiv 5 + 1
  let m := if mp < 10 then mp + 3 else mp - 9
  (if m <= 2 then y + 1 else y, m, d)

/-- `DATE_TRUNC(interval, date)` on canonical ISO dates, rendered back as the
bucket's first date.  `week` truncates to the ISO Monday. -/
def dateTrunc (interval : String) (date : String) : String :=
  match parseIsoDate date with
  | none => date
  | some (y, m, d) =>
    if interval == "year" then isoOfYMD y 1 1
    else if interval == "quarter" then isoOfYMD y (((m - 1) / 3) * 3 + 1) 1
    else if interval == "month" then isoOfYMD y m 1
    else if interval == "week" then
      let days := daysFromCivil (y : Int) (m : Int) (d : Int)
      let monday := days - dowMonday0 days
      let c := civilFromDays monday
      isoOfYMD c.1.toNat c.2.1.toNat c.2.2.toNat
    else date

/-- Time buckets of a sale list under `DATE_TRUNC(interval, date)`, ordered
by `time_period` ascending (the trends statements' `ORDER BY`). -/
def trendBuckets (interval : String) (xs : List Sale) : List (String × List Sale) :=
  sortByLe (fun a b => dateLe a.1 b.1) (groupByKey (fun s => dateTrunc interval s.date) xs)

/-! ## Handler models

Each handler model returns the HTTP status, the error message (the `{ error }`
body) when the status is not 200, the response fields it would serialize, and
the ordered trace of statements it issued against the store.  A thrown
`validateResourceExists` error is modelled by the early-return 404 branch —
the `catch` block maps the error's `statusCode`/`message` onto the response. -/

/-- A tag for each statement the engine can issue (the existence guard keeps
its table and bound id; the others are identified per handler). -/
inductive Query where
  | existence (table : String) (id : Int)
  | listing
  | count
  | summary
  | monthly
  | trends
  | ranking
  | topPerformers
  | comparison
  | userBreakdown
deriving DecidableEq

/-- The existence guard `validateResourceExists(pool, 'users', id)`:
zero rows back from `SELECT * FROM users WHERE id = $1` means a throw. -/
def userExists (db : Db) (uid : Int) : Bool :=
  !(db.users.filter (fun u => u.id == uid)).isEmpty

/-- The existence guard for `groups`. -/
def groupExists (db : Db) (gid : Int) : Bool :=
  !(db.groups.filter (fun g => g.id == gid)).isEmpty

/-- Distinct values in first-occurrence order (`COUNT(DISTINCT ...)`). -/
def dedupInts (xs : List Int) : List Int :=
  xs.foldl (fun acc x => if acc.contains x then acc else acc ++ [x]) []

/-- `Number.parseFloat` applied under the `minAmount ? parseFloat(minAmount)
: null` guard: a falsy raw value gives `null`, anything else is parsed (and
may be `NaN`). -/
def jsOptParseFloat (o : Option String) : Option JsNum :=
  match o with
  | some s => if s.isEmpty then none else some (jsParseFloat s)
  | none => none

/-! ### `getUserSales` (`src/controllers/user-controller.js` lines 30–116) -/

/-- Raw query parameters of a `GET /api/metrics/users/:id/sales` request. -/
structure UserSalesReq where
  startDate : Option String
  endDate : Option String
  page : Option String
  limit : Option String
  sortBy : Option String
  sortOrder : Option String
deriving DecidableEq

/-- A row of the user-sales listing projection `SELECT id, amount, date`. -/
structure URow where
  id : Int
  amount : ℚ
  date : String
deriving DecidableEq

/-- The serialized response of `getUserSales`. -/
structure UserSalesRes where
  status : Nat
  error : Option String
  dataRows : List URow
  pagination : PaginationParams
  total : Int
  filterStartDate : Option String
  filterEndDate : Option String
  links : Links
  queries : List Query
deriving DecidableEq

/-- An empty links block (the error responses carry no links). -/
def noLinks : Links := ⟨"", "", "", none, none⟩

/-- The found-user path of `getUserSales`: validation, statement
evaluation against the store, and the response envelope. -/
def getUserSalesOk (db : Db) (uid : Int) (req : UserSalesReq) : UserSalesRes :=
  let validStartDate := parseDate req.startDate none
  let validEndDate := parseDate req.endDate none
  let validSortBy := validateSortColumn req.sortBy ["date", "amount"] "date"
  let validSortOrder := validateSortOrder req.sortOrder "desc"
  let pagination := getPaginationParams req.page req.limit
  let matched := userSalesMatches db uid validStartDate validEndDate
  let ordered := orderSales validSortBy validSortOrder matched
  let rows := (applyLimitOffset pagination.limit pagination.offset ordered).map
    (fun s => URow.mk s.id s.amount s.date)
  let total : Int := matched.length
  let resp := formatPaginatedResponse rows pagination total
    ("/api/metrics/users/" ++ jsIntToString uid ++ "/sales") ()
  { status := 200, error := none, dataRows := rows, pagination := pagination
    total := total, filterStartDate := validStartDate, filterEndDate := validEndDate
    links := resp.links
    queries := [Query.existence "users" uid, Query.listing, Query.count] }

/-- `getUserSales(req, res, pool)`. -/
def getUserSalesH (db : Db) (id : Option Int) (req : UserSalesReq) : UserSalesRes :=
  match id with
  | none =>
    { status := 400, error := some "User ID is required", dataRows := []
      pagination := ⟨0, 0, 0⟩, total := 0, filterStartDate := none, filterEndDate := none
      links := noLinks, queries := [] }
  | some uid =>
    if userExists db uid then getUserSalesOk db uid req
    else
      { status := 404, error := some (notFoundMessage "users"), dataRows := []
        pagination := ⟨0, 0, 0⟩, total := 0, filterStartDate := none, filterEndDate := none
        links := noLinks, queries := [Query.existence "users" uid] }

/-! ### Aggregate handlers (summary / performance) -/

/-- The serialized response of an aggregate handler: the `data` object is the
assoc list handed to `res.json`, preserving field order. -/
structure AggRes where
  status : Nat
  error : Option String
  data : List (String × Json)
  queries : List Query

/-- A failed aggregate response. -/
def aggFail (status : Nat) (msg : String) (queries : List Query) : AggRes :=
  { status := status, error := some msg, data := [], queries := queries }

/-- A monthly/trend bucket row without `active_users` (user statements). -/
def bucketRowJson (label : String) (b : String × List Sale) : Json :=
  Json.jobj
    [(label, Json.jstr b.1),
     ("sales_count", Json.jint b.2.length),
     ("total_revenue", sumJson (b.2.map Sale.amount)),
     ("average_revenue", avgJson (b.2.map Sale.amount))]

/-- A trend bucket row with `active_users` (group / all-users statements). -/
def bucketRowActiveJson (b : String × List Sale) : Json :=
  Json.jobj
    [("time_period", Json.jstr b.1),
     ("sales_count", Json.jint b.2.length),
     ("total_revenue", sumJson (b.2.map Sale.amount)),
     ("average_revenue", avgJson (b.2.map Sale.amount)),
     ("active_users", Json.jint (dedupInts (b.2.map Sale.user_id)).length)]

/-- `getUserSalesSummary` (`src/controllers/user-controller.js` lines 131–225). -/
def getUserSalesSummaryH (db : Db) (id : Option Int) (startDate endDate : Option String) :
    AggRes :=
  match id with
  | none => aggFail 400 "User ID is required" []
  | some uid =>
    if userExists db uid then
      let validStartDate := parseDate startDate none
      let validEndDate := parseDate endDate none
      let matched := userSalesMatches db uid validStartDate validEndDate
      let monthly := trendBuckets "month" matched
      { status := 200, error := none
        data :=
          [("summary", summaryRowJson (matched.map Sale.amount)),
           ("monthly_breakdown", Json.jarr (monthly.map (bucketRowJson "month")))]
        queries := [Query.existence "users" uid, Query.summary, Query.monthly] }
    else aggFail 404 (notFoundMessage "users") [Query.existence "users" uid]

/-- Window sales of one user (`user_id = $1 AND date BETWEEN $2 AND $3`). -/
def userWindowSales (db : Db) (uid : Int) (sd ed : String) : List Sale :=
  db.sales.filter fun s => s.user_id == uid && dateLe sd s.date && dateLe s.date ed

/-- Window sales of all members of one group. -/
def groupWindowSales (db : Db) (gid : Int) (sd ed : String) : List Sale :=
  db.sales.filter fun s => inGroup db s.user_id gid && dateLe sd s.date && dateLe s.date ed

/-- Revenue of user `uid` within group `gid`'s window sales. -/
def userRevenueInGroup (db : Db) (gid uid : Int) (sd ed : String) : ℚ :=
  sumQ (((groupWindowSales db gid sd ed).filter (fun s => s.user_id == uid)).map Sale.amount)

/-- `RANK() OVER (PARTITION BY g.id ORDER BY SUM(s.amount) DESC)` of `uid`
within group `gid`: one plus the number of member users with strictly
greater window revenue. -/
def userRankInGroup (db : Db) (gid uid : Int) (sd ed : String) : Nat :=
  let revs := (groupByKey Sale.user_id (groupWindowSales db gid sd ed)).map
    (fun p => (p.1, sumQ (p.2.map Sale.amount)))
  1 + (revs.filter (fun p => decide (userRevenueInGroup db gid uid sd ed < p.2))).length

/-- One row of the `getUserPerformance` ranking statement for a group the
user belongs to and sold in. -/
def rankingRowJson (db : Db) (uid : Int) (sd ed : String) (g : GroupRow) : Json :=
  Json.jobj
    [("group_id", Json.jint g.id),
     ("group_name", Json.jstr g.name),
     ("user_revenue", Json.jrat (userRevenueInGroup db g.id uid sd ed)),
     ("rank", Json.jint (userRankInGroup db g.id uid sd ed)),
     ("total_users", Json.jint
       (((groupByKey Sale.user_id (groupWindowSales db g.id sd ed)).filter
         (fun p => p.1 == uid)).length))]

/-- `getUserPerformance` (`src/controllers/user-controller.js` lines 240–392). -/
def getUserPerformanceH (db : Db) (id : Option Int)
    (startDate endDate interval : Option String) : AggRes :=
  match id with
  | none => aggFail 400 "User ID is required" []
  | some uid =>
    if userExists db uid then
      let validStartDate := (parseDate startDate (some "2021-01-01")).getD ""
      let validEndDate := (parseDate endDate (some "2021-12-31")).getD ""
      let validInterval := validateInterval interval "month"
      let windowSales := userWindowSales db uid validStartDate validEndDate
      let trendRows := trendBuckets validInterval windowSales
      let rankedGroups := db.groups.filter fun g =>
        inGroup db uid g.id &&
          !((groupWindowSales db g.id validStartDate validEndDate).filter
            (fun s => s.user_id == uid)).isEmpty
      { status := 200, error := none
        data :=
          [("summary", summaryRowJson (windowSales.map Sale.amount)),
           ("trends", Json.jarr (trendRows.map (bucketRowJson "time_period"))),
           ("group_rankings", Json.jarr
             (rankedGroups.map (rankingRowJson db uid validStartDate validEndDate)))]
        queries := [Query.existence "users" uid, Query.trends, Query.summary, Query.ranking] }
    else aggFail 404 (notFoundMessage "users") [Query.existence "users" uid]

/-! ### Group handlers (`src/controllers/group-controller.js`) -/

/-- A row of the group-sales listing projection
`SELECT s.id, s.user_id, u.name as user_name, s.amount, s.date`. -/
structure SRow where
  id : Int
  user_id : Int
  user_name : String
  amount : ℚ
  date : String
deriving DecidableEq

/-- The inner join of a sale with its `users` row, projected for listings. -/
def joinUserName (db : Db) (s : Sale) : Option SRow :=
  (db.users.find? (fun u => u.id == s.user_id)).map
    (fun u => SRow.mk s.id s.user_id u.name s.amount s.date)

/-- The serialized response of `getGroupSales`. -/
structure GroupSalesRes where
  status : Nat
  error : Option String
  dataRows : List SRow
  pagination : PaginationParams
  total : Int
  filterStartDate : Option String
  filterEndDate : Option String
  filterUserId : Option String
  links : Links
  queries : List Query
deriving DecidableEq

/-- `getGroupSales(req, res, pool)` (lines 143–245).  The optional `userId`
query filter binds the raw string, which the store casts to the sale's
integer `user_id` — modelled by comparison with the canonical rendering. -/
def getGroupSalesH (db : Db) (id : Option Int)
    (startDate endDate page limitRaw sortBy sortOrder userId : Option String) :
    GroupSalesRes :=
  match id with
  | none =>
    { status := 400, error := some "Group ID is required", dataRows := []
      pagination := ⟨0, 0, 0⟩, total := 0, filterStartDate := none, filterEndDate := none
      filterUserId := none, links := noLinks, queries := [] }
  | some gid =>
    if groupExists db gid then
      let validStartDate := parseDate startDate none
      let validEndDate := parseDate endDate none
      let validSortBy := validateSortColumn sortBy ["date", "amount", "user_id"] "date"
      let validSortOrder := validateSortOrder sortOrder "desc"
      let pagination := getPaginationParams page limitRaw
      let matched := (groupSalesMatches db gid validStartDate validEndDate).filter
        (fun s => match userId with
          | some v => if v.isEmpty then true else jsIntToString s.user_id == v
          | none => true)
      let ordered := orderSales validSortBy validSortOrder matched
      let rows := (applyLimitOffset pagination.limit pagination.offset ordered).filterMap
        (joinUserName db)
      let total : Int := matched.length
      let resp := formatPaginatedResponse rows pagination total
        ("/api/metrics/groups/" ++ jsIntToString gid ++ "/sales") ()
      { status := 200, error := none, dataRows := rows, pagination := pagination
        total := total, filterStartDate := validStartDate, filterEndDate := validEndDate
        filterUserId := userId, links := resp.links
        queries := [Query.existence "groups" gid, Query.listing, Query.count] }
    else
      { status := 404, error := some (notFoundMessage "groups"), dataRows := []
        pagination := ⟨0, 0, 0⟩, total := 0, filterStartDate := none, filterEndDate := none
        filterUserId := none, links := noLinks, queries := [Query.existence "groups" gid] }

/-- The `getGroupSalesSummary` scalar summary row, which also carries
`COUNT(DISTINCT s.user_id) AS active_users`. -/
def groupSummaryRowJson (xs : List Sale) : Json :=
  Json.jobj
    [("total_sales", Json.jint xs.length),
     ("total_revenue", sumJson (xs.map Sale.amount)),
     ("average_sale", avgJson (xs.map Sale.amount)),
     ("min_sale", optQJson (minQ (xs.map Sale.amount))),
     ("max_sale", optQJson (maxQ (xs.map Sale.amount))),
     ("active_users", Json.jint (dedupInts (xs.map Sale.user_id)).length)]

/-- One `user_breakdown` row of `getGroupSalesSummary`. -/
def userBreakdownRowJson (db : Db) (p : Int × List Sale) : Json :=
  Json.jobj
    ([("user_id", Json.jint p.1)]
      ++ (match db.users.find? (fun u => u.id == p.1) with
          | some u => [("user_name", Json.jstr u.name), ("role", Json.jstr u.role)]
          | none => [])
      ++ [("sales_count", Json.jint p.2.length),
          ("total_revenue", sumJson (p.2.map Sale.amount)),
          ("average_sale", avgJson (p.2.map Sale.amount))])

/-- `getGroupSalesSummary` (lines 260–352). -/
def getGroupSalesSummaryH (db : Db) (id : Option Int) (startDate endDate : Option String) :
    AggRes :=
  match id with
  | none => aggFail 400 "Group ID is required" []
  | some gid =>
    if groupExists db gid then
      let validStartDate := parseDate startDate none
      let validEndDate := parseDate endDate none
      let matched := groupSalesMatches db gid validStartDate validEndDate
      let perUser := sortByLe
        (fun a b => decide (sumQ (b.2.map Sale.amount) ≤ sumQ (a.2.map Sale.amount)))
        (groupByKey Sale.user_id matched)
      { status := 200, error := none
        data :=
          [("summary", groupSummaryRowJson matched),
           ("user_breakdown", Json.jarr (perUser.map (userBreakdownRowJson db)))]
        queries := [Query.existence "groups" gid, Query.summary, Query.userBreakdown] }
    else aggFail 404 (notFoundMessage "groups") [Query.existence "groups" gid]

/-- One `top_performers` row of `getGroupPerformance`: per-user aggregates
over the group's window sales with `RANK() OVER (ORDER BY SUM DESC)`. -/
def topPerformerRowJson (db : Db) (gid : Int) (sd ed : String) (p : Int × List Sale) : Json :=
  let revs := (groupByKey Sale.user_id (groupWindowSales db gid sd ed)).map
    (fun q => sumQ (q.2.map Sale.amount))
  let mine := sumQ (p.2.map Sale.amount)
  Json.jobj
    ([("id", Json.jint p.1)]
      ++ (match db.users.find? (fun u => u.id == p.1) with
          | some u => [("name", Json.jstr u.name), ("role", Json.jstr u.role)]
          | none => [])
      ++ [("sales_count", Json.jint p.2.length),
          ("total_revenue", Json.jrat mine),
          ("average_revenue", avgJson (p.2.map Sale.amount)),
          ("rank", Json.jint (1 + (revs.filter (fun r => decide (mine < r))).length))])

/-- Window sales reachable from a group via memberships (the comparison
statement's join for one `groups` row). -/
def groupMetricSales (db : Db) (gid : Int) (sd ed : String) : List Sale :=
  db.sales.filter fun s => inGroup db s.user_id gid && dateLe sd s.date && dateLe s.date ed

/-- One `comparison` row of `getGroupPerformance` for group `g`, with the
three rank columns computed over every group that has window sales. -/
def comparisonRowJson (db : Db) (sd ed : String) (g : GroupRow) : Json :=
  let mineSales := groupMetricSales db g.id sd ed
  let others := (db.groups.filter
    (fun h => !(groupMetricSales db h.id sd ed).isEmpty)).map
    (fun h => groupMetricSales db h.id sd ed)
  let revOf := fun (xs : List Sale) => sumQ (xs.map Sale.amount)
  let avgOf := fun (xs : List Sale) => revOf xs / (xs.length : ℚ)
  Json.jobj
    [("group_id", Json.jint g.id),
     ("group_name", Json.jstr g.name),
     ("sales_count", Json.jint mineSales.length),
     ("total_revenue", Json.jrat (revOf mineSales)),
     ("average_revenue", avgJson (mineSales.map Sale.amount)),
     ("active_users", Json.jint (dedupInts (mineSales.map Sale.user_id)).length),
     ("revenue_rank", Json.jint
       (1 + (others.filter (fun xs => decide (revOf mineSales < revOf xs))).length)),
     ("sales_rank", Json.jint
       (1 + (others.filter (fun xs => decide (mineSales.length < xs.length))).length)),
     ("avg_revenue_rank", Json.jint
       (1 + (others.filter (fun xs => decide (avgOf mineSales < avgOf xs))).length))]

/-- `getGroupPerformance` (`src/controllers/group-controller.js` lines
354–484).  The response `data` object holds `trends`, `top_performers` and
`comparison` — there is no `summary` field in this handler. -/
def getGroupPerformanceH (db : Db) (id : Option Int)
    (startDate endDate interval : Option String) : AggRes :=
  match id with
  | none => aggFail 400 "Group ID is required" []
  | some gid =>
    if groupExists db gid then
      let validStartDate := (parseDate startDate (some "2021-01-01")).getD ""
      let validEndDate := (parseDate endDate (some "2021-12-31")).getD ""
      let validInterval := validateInterval interval "month"
      let windowSales := groupWindowSales db gid validStartDate validEndDate
      let trendRows := trendBuckets validInterval windowSales
      let perUser := sortByLe
        (fun a b => decide (sumQ (b.2.map Sale.amount) ≤ sumQ (a.2.map Sale.amount)))
        (groupByKey Sale.user_id windowSales)
      let comparisonGroups :=
        let withSales := db.groups.filter
          (fun h => !(groupMetricSales db h.id validStartDate validEndDate).isEmpty)
        sortByLe (fun a b =>
          if a.id == gid then true
          else if b.id == gid then false
          else decide
            (sumQ ((groupMetricSales db b.id validStartDate validEndDate).map Sale.amount)
              ≤ sumQ ((groupMetricSales db a.id validStartDate validEndDate).map Sale.amount)))
          withSales
      { status := 200, error := none
        data :=
          [("trends", Json.jarr (trendRows.map bucketRowActiveJson)),
           ("top_performers", Json.jarr
             ((perUser.take 10).map (topPerformerRowJson db gid validStartDate validEndDate))),
           ("comparison", Json.jarr
             (comparisonGroups.map (comparisonRowJson db validStartDate validEndDate)))]
        queries := [Query.existence "groups" gid, Query.trends, Query.topPerformers,
          Query.comparison] }
    else aggFail 404 (notFoundMessage "groups") [Query.existence "groups" gid]

/-! ### `listSales` (`src/controllers/sales-controller.js` lines 30–161) -/

/-- Raw query parameters of `GET /api/metrics/sales`. -/
structure ListSalesReq where
  page : Option String
  limit : Option String
  startDate : Option String
  endDate : Option String
  userId : Option String
  groupId : Option String
  minAmount : Option String
  maxAmount : Option String
  sortBy : Option String
  sortOrder : Option String
deriving DecidableEq

/-- The resolved filter values `listSales` computes before assembling its
statements (source lines 44–56). -/
structure ListSalesResolved where
  pagination : PaginationParams
  validStartDate : Option String
  validEndDate : Option String
  validSortBy : String
  validSortOrder : String
  validMinAmount : Option JsNum
  validMaxAmount : Option JsNum
deriving DecidableEq

/-- The validation pipeline of `listSales`. -/
def listSalesResolve (req : ListSalesReq) : ListSalesResolved :=
  { pagination := getPaginationParams req.page req.limit
    validStartDate := parseDate req.startDate none
    validEndDate := parseDate req.endDate none
    validSortBy := validateSortColumn req.sortBy ["date", "amount", "user_id"] "date"
    validSortOrder := validateSortOrder req.sortOrder "desc"
    validMinAmount := jsOptParseFloat req.minAmount
    validMaxAmount := jsOptParseFloat req.maxAmount }

/-- The serialized response of `listSales` (plus, for the statement-level
properties, the assembled statements themselves). -/
structure ListSalesRes where
  status : Nat
  error : Option String
  resolved : ListSalesResolved
  stmts : BuiltStatements
  dataRows : List SRow
  total : Int
  links : Links
  queries : List Query
deriving DecidableEq

/-- Whether a sale matches an optional raw id filter (the store casts the
bound string to the integer column; canonical decimal strings modelled). -/
def idFilterMatches (o : Option String) (v : Int) : Bool :=
  match o with
  | some raw => if raw.isEmpty then true else jsIntToString v == raw
  | none => true

/-- Whether a sale's user belongs to the group named by the optional raw
`groupId` filter. -/
def groupFilterMatches (db : Db) (o : Option String) (uid : Int) : Bool :=
  match o with
  | some raw =>
    if raw.isEmpty then true
    else db.user_groups.any (fun p => p.1 == uid && jsIntToString p.2 == raw)
  | none => true

/-- `listSales(req, res, pool)`: there is no existence guard and every
malformed optional filter has already been resolved away, so the handler
always answers 200 (a 500 arises only from a store failure, outside this
model). -/
def listSalesH (db : Db) (req : ListSalesReq) : ListSalesRes :=
  let r := listSalesResolve req
  let stmts := listSalesStmts r.validStartDate r.validEndDate req.userId
    r.validMinAmount r.validMaxAmount req.groupId r.validSortBy r.validSortOrder r.pagination
  let matched := db.sales.filter fun s =>
    dateGeOpt r.validStartDate s.date && dateLeOpt r.validEndDate s.date
    && idFilterMatches req.userId s.user_id
    && pgGeOpt r.validMinAmount s.amount && pgLeOpt r.validMaxAmount s.amount
    && groupFilterMatches db req.groupId s.user_id
  let ordered := orderSales r.validSortBy r.validSortOrder matched
  let rows := (applyLimitOffset r.pagination.limit r.pagination.offset ordered).filterMap
    (joinUserName db)
  let total : Int := matched.length
  let resp := formatPaginatedResponse rows r.pagination total "/api/metrics/sales" ()
  { status := 200, error := none, resolved := r, stmts := stmts, dataRows := rows
    total := total, links := resp.links, queries := [Query.listing, Query.count] }

/-! ## Statement well-formedness

`numberedFrom conds` says the `k`-th condition fragment (0-based) ends with
the placeholder `$k+1` — contiguous, 1-based placeholder numbering in
fragment order. -/

/-- Contiguous 1-based placeholder numbering of a condition list. -/
def numberedFrom (conds : List String) : Bool :=
  (List.range conds.length).all (fun k => strEndsWith (conds.getD k "") (placeholder (k + 1)))

/-- Invariant of the condition builder: `paramIndex` is one past the number
of bound values, every fragment has a bound value, and fragments are
numbered contiguously from `$1`. -/
def CondBuilder.Wf (b : CondBuilder) : Prop :=
  b.paramIndex = b.queryParams.length + 1 ∧
  b.conditions.length = b.queryParams.length ∧
  numberedFrom b.conditions = true

/-! ## General lemmas: strings, placeholders, ceilings, digit round-trips -/

theorem isPrefixOf_self_append (l r : List Char) : l.isPrefixOf (l ++ r) = true := by
  induction l with
  | nil => simp [List.isPrefixOf]
  | cons a as ih => simp [List.isPrefixOf, ih]

theorem strEndsWith_append (a b : String) : strEndsWith (a ++ b) b = true := by
  unfold strEndsWith
  rw [String.data_append]
  unfold List.isSuffixOf
  rw [List.reverse_append]
  exact isPrefixOf_self_append _ _

theorem jsMathCeilDiv_eq_ceil (a b : Int) (hb : 0 < b) :
    jsMathCeilDiv a b = ⌈(a : ℚ) / (b : ℚ)⌉ := by
  unfold jsMathCeilDiv
  rw [Int.fdiv_eq_ediv _ hb.le]
  have hbn : ((b.toNat : ℕ) : ℤ) = b := Int.toNat_of_nonneg hb.le
  have h1 : ⌊(((-a : ℤ) : ℚ)) / (((b.toNat : ℕ) : ℤ) : ℚ)⌋ = (-a) / ((b.toNat : ℕ) : ℤ) := by
    rw [Int.cast_natCast]
    exact Rat.floor_intCast_div_natCast (-a) b.toNat
  rw [hbn] at h1
  have h2 : ⌈(a : ℚ) / (b : ℚ)⌉ = -⌊((-a : ℤ) : ℚ) / (b : ℚ)⌋ := by
    push_cast
    rw [neg_div, Int.floor_neg, neg_neg]
  rw [h2, h1]

theorem digitVal_digitChar (k : Nat) (h : k < 10) : digitVal (Nat.digitChar k) = k := by
  interval_cases k <;> rfl

theorem digitChar_isDigit (k : Nat) (h : k < 10) : (Nat.digitChar k).isDigit = true := by
  interval_cases k <;> rfl

theorem digitChar_not_space (k : Nat) (h : k < 10) : isSpaceChar (Nat.digitChar k) = false := by
  interval_cases k <;> rfl

theorem digitChar_ne_minus (k : Nat) (h : k < 10) : (Nat.digitChar k == '-') = false := by
  interval_cases k <;> rfl

theorem digitChar_ne_plus (k : Nat) (h : k < 10) : (Nat.digitChar k == '+') = false := by
  interval_cases k <;> rfl

theorem natDigitsAux_fuel (n : Nat) : ∀ f1 f2 acc, n < f1 → n < f2 →
    natDigitsAux f1 n acc = natDigitsAux f2 n acc := by
  induction n using Nat.strong_induction_on with
  | _ n ih =>
    intro f1 f2 acc h1 h2
    match f1, f2 with
    | fa + 1, fb + 1 =>
      by_cases h : n < 10
      · simp [natDigitsAux, h]
      · simp only [natDigitsAux, h, if_false]
        exact ih (n / 10) (Nat.div_lt_self (by omega) (by omega)) fa fb _
          (by omega) (by omega)

theorem natDigits_eq (n : Nat) (acc : List Char) :
    natDigits n acc = if n < 10 then Nat.digitChar n :: acc
      else natDigits (n / 10) (Nat.digitChar (n % 10) :: acc) := by
  unfold natDigits
  by_cases h : n < 10
  · simp [natDigitsAux, h]
  · simp only [natDigitsAux, h, if_false]
    exact natDigitsAux_fuel (n / 10) n (n / 10 + 1) _ (by omega) (by omega)

theorem natDigits_append (n : Nat) : ∀ acc, natDigits n acc = natDigits n [] ++ acc := by
  induction n using Nat.strong_induction_on with
  | _ n ih =>
    intro acc
    by_cases h : n < 10
    · rw [natDigits_eq n acc, natDigits_eq n []]
      simp [h]
    · have hd : n / 10 < n := Nat.div_lt_self (by omega) (by omega)
      rw [natDigits_eq n acc, natDigits_eq n []]
      simp only [h, if_false]
      rw [ih (n / 10) hd (Nat.digitChar (n % 10) :: acc),
        ih (n / 10) hd [Nat.digitChar (n % 10)]]
      simp

theorem natDigits_length_pos (n : Nat) : ∀ acc, 0 < (natDigits n acc).length := by
  induction n using Nat.strong_induction_on with
  | _ n ih =>
    intro acc
    by_cases h : n < 10
    · rw [natDigits_eq]; simp [h]
    · have hd : n / 10 < n := Nat.div_lt_self (by omega) (by omega)
      rw [natDigits_eq]
      simp only [h, if_false]
      exact ih (n / 10) hd _

theorem natDigits_chars (n : Nat) :
    ∀ c ∈ natDigits n [], ∃ k, k < 10 ∧ c = Nat.digitChar k := by
  induction n using Nat.strong_induction_on with
  | _ n ih =>
    intro c hc
    by_cases h : n < 10
    · rw [natDigits_eq] at hc
      simp [h] at hc
      exact ⟨n, h, hc⟩
    · have hd : n / 10 < n := Nat.div_lt_self (by omega) (by omega)
      rw [natDigits_eq] at hc
      simp only [h, if_false] at hc
      rw [natDigits_append] at hc
      rcases List.mem_append.mp hc with h1 | h2
      · exact ih (n / 10) hd c h1
      · simp at h2
        exact ⟨n % 10, Nat.mod_lt _ (by omega), h2⟩

theorem digitsToNatFrom_natDigits (n : Nat) :
    ∀ a, digitsToNatFrom a (natDigits n []) = a * 10 ^ (natDigits n []).length + n := by
  induction n using Nat.strong_induction_on with
  | _ n ih =>
    intro a
    by_cases h : n < 10
    · rw [natDigits_eq]
      simp [h, digitsToNatFrom, digitVal_digitChar n h]
    · have hd : n / 10 < n := Nat.div_lt_self (by omega) (by omega)
      have hsplit : natDigits n [] = natDigits (n / 10) [] ++ [Nat.digitChar (n % 10)] := by
        rw [natDigits_eq]
        simp only [h, if_false]
        exact natDigits_append (n / 10) [Nat.digitChar (n % 10)]
      rw [hsplit]
      unfold digitsToNatFrom
      rw [List.foldl_append]
      have hfold := ih (n / 10) hd a
      unfold digitsToNatFrom at hfold
      rw [hfold]
      simp only [List.foldl_cons, List.foldl_nil, List.length_append, List.length_cons,
        List.length_nil]
      rw [digitVal_digitChar (n % 10) (Nat.mod_lt _ (by omega))]
      calc (a * 10 ^ (natDigits (n / 10) []).length + n / 10) * 10 + n % 10
          = a * 10 ^ ((natDigits (n / 10) []).length + (0 + 1)) + (n / 10 * 10 + n % 10) := by
            ring
        _ = a * 10 ^ ((natDigits (n / 10) []).length + (0 + 1)) + n := by
            omega

theorem digitsToNat_natDigits (n : Nat) : digitsToNat (natDigits n []) = n := by
  unfold digitsToNat
  rw [digitsToNatFrom_natDigits]
  simp

theorem takeWhile_all (p : Char → Bool) (l : List Char) (h : ∀ c ∈ l, p c = true) :
    l.takeWhile p = l := by
  induction l with
  | nil => rfl
  | cons a t ih =>
    rw [List.takeWhile_cons, h a (List.mem_cons_self a t)]
    simp only [ite_true]
    rw [ih (fun c hc => h c (List.mem_cons_of_mem a hc))]

theorem parseDigitsPrefix_natDigits (m : Nat) :
    parseDigitsPrefix (natDigits m []) = some m := by
  have hdig : ∀ c ∈ natDigits m [], c.isDigit = true := by
    intro c hc
    obtain ⟨k, hk, rfl⟩ := natDigits_chars m c hc
    exact digitChar_isDigit k hk
  have hne : (natDigits m []).isEmpty = false := by
    have := natDigits_length_pos m []
    cases hcase : natDigits m [] with
    | nil => rw [hcase] at this; simp at this
    | cons a t => rfl
  show (if (natDigits m []).takeWhile Char.isDigit |>.isEmpty then none
    else some (digitsToNat ((natDigits m []).takeWhile Char.isDigit))) = some m
  rw [takeWhile_all _ _ hdig, hne]
  simp [digitsToNat_natDigits m]

theorem jsParseInt_jsNatToString (n : Nat) : jsParseInt (jsNatToString n) = some (n : Int) := by
  unfold jsParseInt jsNatToString
  rcases hds : natDigits n [] with _ | ⟨c, t⟩
  · have := natDigits_length_pos n []
    rw [hds] at this
    simp at this
  · obtain ⟨k, hk, hc⟩ := natDigits_chars n c (by rw [hds]; exact List.mem_cons_self _ _)
    have hspace : isSpaceChar c = false := by rw [hc]; exact digitChar_not_space k hk
    have hminus : (c == '-') = false := by rw [hc]; exact digitChar_ne_minus k hk
    have hplus : (c == '+') = false := by rw [hc]; exact digitChar_ne_plus k hk
    show (match (String.mk (c :: t)).data.dropWhile isSpaceChar with
      | [] => none
      | c :: rest =>
        if c == '-' then (parseDigitsPrefix rest).map (fun n => -(n : Int))
        else if c == '+' then (parseDigitsPrefix rest).map (fun n => (n : Int))
        else (parseDigitsPrefix (c :: rest)).map (fun n => (n : Int))) = some (n : Int)
    have hdata : (String.mk (c :: t)).data = c :: t := rfl
    rw [hdata, List.dropWhile_cons, hspace]
    simp only [Bool.false_eq_true, if_false, hminus, hplus]
    have hpref : parseDigitsPrefix (c :: t) = some n := by
      rw [← hds]; exact parseDigitsPrefix_natDigits n
    rw [hpref]
    rfl

theorem jsParseInt_jsIntToString (p : Int) : jsParseInt (jsIntToString p) = some p := by
  unfold jsIntToString
  by_cases hp : p < 0
  · rw [if_pos hp]
    have hstep : jsParseInt ("-" ++ jsNatToString (-p).toNat)
        = (parseDigitsPrefix (natDigits (-p).toNat [])).map (fun n => -(n : Int)) := rfl
    rw [hstep, parseDigitsPrefix_natDigits]
    show some (-(((-p).toNat : Nat) : Int)) = some p
    congr 1
    omega
  · rw [if_neg hp]
    rw [jsParseInt_jsNatToString]
    congr 1
    omega

theorem jsOrI_ne_zero (x : Option Int) (d : Int) (hd : d ≠ 0) : jsOrI x d ≠ 0 := by
  unfold jsOrI
  rcases x with _ | v
  · exact hd
  · by_cases hv : v = 0 <;> simp [hv, hd]

theorem jsOrI_some_ne_zero (v d : Int) (hv : v ≠ 0) : jsOrI (some v) d = v := by
  unfold jsOrI
  simp [hv]

theorem parseDate_idem (o : Option String) :
    parseDate (parseDate o none) none = parseDate o none := by
  rcases o with _ | s
  · rfl
  · unfold parseDate
    by_cases h : newDateValid s = true
    · simp [h]
    · have h' : newDateValid s = false := by
        cases hv : newDateValid s
        · rfl
        · exact absurd hv h
      simp [h']

/-! ## Condition-builder invariants (claim C1 machinery) -/

theorem numberedFrom_append (conds : List String) (c : String)
    (h : numberedFrom conds = true)
    (hc : strEndsWith c (placeholder (conds.length + 1)) = true) :
    numberedFrom (conds ++ [c]) = true := by
  unfold numberedFrom at h ⊢
  rw [List.length_append, List.length_cons, List.length_nil, Nat.add_zero]
  have hr : List.range (conds.length + 1) = List.range conds.length ++ [conds.length] := by
    simpa using List.range_succ (n := conds.length)
  rw [hr, List.all_append, Bool.and_eq_true]
  constructor
  · rw [List.all_eq_true] at h ⊢
    intro k hk
    have hklt : k < conds.length := List.mem_range.mp hk
    have hgd : (conds ++ [c]).getD k "" = conds.getD k "" := by
      simp [List.getD, List.get?_eq_getElem?, List.getElem?_append, hklt]
    rw [hgd]
    exact h k hk
  · simp only [List.all_cons, List.all_nil, Bool.and_true]
    have hgd : (conds ++ [c]).getD conds.length "" = c := by
      simp [List.getD, List.get?_eq_getElem?, List.getElem?_append_right (Nat.le_refl _)]
    rw [hgd]
    exact hc

theorem CondBuilder.push_wf (b : CondBuilder) (mk : Nat → String) (v : Val)
    (hb : b.Wf) (hmk : ∀ i, strEndsWith (mk i) (placeholder i) = true) :
    (b.push mk v).Wf := by
  obtain ⟨h1, h2, h3⟩ := hb
  refine ⟨?_, ?_, ?_⟩
  · simp [CondBuilder.push, h1]
  · simp [CondBuilder.push, h2]
  · show numberedFrom (b.conditions ++ [mk b.paramIndex]) = true
    apply numberedFrom_append _ _ h3
    have he : b.conditions.length + 1 = b.paramIndex := by rw [h2, h1]
    rw [he]
    exact hmk b.paramIndex

theorem pushIfStr_wf (b : CondBuilder) (o : Option String) (mk : Nat → String)
    (hb : b.Wf) (hmk : ∀ i, strEndsWith (mk i) (placeholder i) = true) :
    (pushIfStr b o mk).Wf := by
  unfold pushIfStr
  rcases o with _ | s
  · exact hb
  · cases hs : s.isEmpty
    · simp only [hs, Bool.false_eq_true, if_false]
      exact CondBuilder.push_wf b mk _ hb hmk
    · simp only [hs, if_true]
      exact hb

theorem pushIfNum_wf (b : CondBuilder) (o : Option JsNum) (mk : Nat → String)
    (hb : b.Wf) (hmk : ∀ i, strEndsWith (mk i) (placeholder i) = true) :
    (pushIfNum b o mk).Wf := by
  unfold pushIfNum
  rcases o with _ | n
  · exact hb
  · exact CondBuilder.push_wf b mk _ hb hmk

theorem listSalesBuilder_wf (sd ed uid : Option String) (mn mx : Option JsNum)
    (gid : Option String) : (listSalesBuilder sd ed uid mn mx gid).Wf := by
  unfold listSalesBuilder
  apply pushIfStr_wf
  · apply pushIfNum_wf
    · apply pushIfNum_wf
      · apply pushIfStr_wf
        · apply pushIfStr_wf
          · apply pushIfStr_wf
            · exact ⟨rfl, rfl, rfl⟩
            · intro i; exact strEndsWith_append _ _
          · intro i; exact strEndsWith_append _ _
        · intro i; exact strEndsWith_append _ _
      · intro i; exact strEndsWith_append _ _
    · intro i; exact strEndsWith_append _ _
  · intro i; exact strEndsWith_append _ _

theorem userSalesBuilder_wf (uid : Int) (sd ed : Option String) :
    (userSalesBuilder uid sd ed).Wf := by
  unfold userSalesBuilder
  apply pushIfStr_wf
  · apply pushIfStr_wf
    · refine ⟨rfl, rfl, ?_⟩
      show numberedFrom ["user_id = $1"] = true
      decide
    · intro i; exact strEndsWith_append _ _
  · intro i; exact strEndsWith_append _ _

theorem groupSalesBuilder_wf (gid : Int) (sd ed uidF : Option String) :
    (groupSalesBuilder gid sd ed uidF).Wf := by
  unfold groupSalesBuilder
  apply pushIfStr_wf
  · apply pushIfStr_wf
    · apply pushIfStr_wf
      · refine ⟨rfl, rfl, ?_⟩
        show numberedFrom ["ug.group_id = $1"] = true
        decide
      · intro i; exact strEndsWith_append _ _
    · intro i; exact strEndsWith_append _ _
  · intro i; exact strEndsWith_append _ _

theorem groupUsersBuilder_wf (gid : Int) (role : Option String) :
    (groupUsersBuilder gid role).Wf := by
  unfold groupUsersBuilder
  apply pushIfStr_wf
  · refine ⟨rfl, rfl, ?_⟩
    show numberedFrom ["ug.group_id = $1"] = true
    decide
  · intro i; exact strEndsWith_append _ _

theorem listSalesStmts_count_props (sd ed uid : Option String) (mn mx : Option JsNum)
    (gid : Option String) (sb so : String) (pg : PaginationParams) :
    (listSalesStmts sd ed uid mn mx gid sb so pg).countParams
        = (listSalesStmts sd ed uid mn mx gid sb so pg).filterParams ∧
    (listSalesStmts sd ed uid mn mx gid sb so pg).listParams
        = (listSalesStmts sd ed uid mn mx gid sb so pg).filterParams
          ++ [Val.vint pg.limit, Val.vint pg.offset] ∧
    (listSalesStmts sd ed uid mn mx gid sb so pg).conditions.length
        = (listSalesStmts sd ed uid mn mx gid sb so pg).filterParams.length ∧
    numberedFrom (listSalesStmts sd ed uid mn mx gid sb so pg).conditions = true ∧
    (listSalesStmts sd ed uid mn mx gid sb so pg).paramIndex
        = (listSalesStmts sd ed uid mn mx gid sb so pg).filterParams.length + 1 := by
  obtain ⟨h1, h2, h3⟩ := listSalesBuilder_wf sd ed uid mn mx gid
  refine ⟨?_, rfl, h2, h3, h1⟩
  show ((listSalesBuilder sd ed uid mn mx gid).queryParams
      ++ [Val.vint pg.limit, Val.vint pg.offset]).take
        ((listSalesBuilder sd ed uid mn mx gid).paramIndex - 1)
      = (listSalesBuilder sd ed uid mn mx gid).queryParams
  rw [h1, Nat.add_sub_cancel]
  exact List.take_left _ _

theorem userSalesStmts_count_props (uid : Int) (sd ed : Option String)
    (sb so : String) (pg : PaginationParams) :
    (userSalesStmts uid sd ed sb so pg).countParams
        = (userSalesStmts uid sd ed sb so pg).filterParams ∧
    (userSalesStmts uid sd ed sb so pg).listParams
        = (userSalesStmts uid sd ed sb so pg).filterParams
          ++ [Val.vint pg.limit, Val.vint pg.offset] ∧
    (userSalesStmts uid sd ed sb so pg).conditions.length
        = (userSalesStmts uid sd ed sb so pg).filterParams.length ∧
    numberedFrom (userSalesStmts uid sd ed sb so pg).conditions = true ∧
    (userSalesStmts uid sd ed sb so pg).paramIndex
        = (userSalesStmts uid sd ed sb so pg).filterParams.length + 1 := by
  obtain ⟨h1, h2, h3⟩ := userSalesBuilder_wf uid sd ed
  refine ⟨?_, rfl, h2, h3, h1⟩
  show ((userSalesBuilder uid sd ed).queryParams
      ++ [Val.vint pg.limit, Val.vint pg.offset]).take
        ((userSalesBuilder uid sd ed).paramIndex - 1)
      = (userSalesBuilder uid sd ed).queryParams
  rw [h1, Nat.add_sub_cancel]
  exact List.take_left _ _

theorem groupSalesStmts_count_props (gid : Int) (sd ed uidF : Option String)
    (sb so : String) (pg : PaginationParams) :
    (groupSalesStmts gid sd ed uidF sb so pg).countParams
        = (groupSalesStmts gid sd ed uidF sb so pg).filterParams ∧
    (groupSalesStmts gid sd ed uidF sb so pg).listParams
        = (groupSalesStmts gid sd ed uidF sb so pg).filterParams
          ++ [Val.vint pg.limit, Val.vint pg.offset] ∧
    (groupSalesStmts gid sd ed uidF sb so pg).conditions.length
        = (groupSalesStmts gid sd ed uidF sb so pg).filterParams.length ∧
    numberedFrom (groupSalesStmts gid sd ed uidF sb so pg).conditions = true ∧
    (groupSalesStmts gid sd ed uidF sb so pg).paramIndex
        = (groupSalesStmts gid sd ed uidF sb so pg).filterParams.length + 1 := by
  obtain ⟨h1, h2, h3⟩ := groupSalesBuilder_wf gid sd ed uidF
  refine ⟨?_, rfl, h2, h3, h1⟩
  show ((groupSalesBuilder gid sd ed uidF).queryParams
      ++ [Val.vint pg.limit, Val.vint pg.offset]).take
        ((groupSalesBuilder gid sd ed uidF).paramIndex - 1)
      = (groupSalesBuilder gid sd ed uidF).queryParams
  rw [h1, Nat.add_sub_cancel]
  exact List.take_left _ _

theorem groupUsersStmts_count_props (gid : Int) (role : Option String)
    (sb so : String) (pg : PaginationParams) :
    (groupUsersStmts gid role sb so pg).countParams
        = (groupUsersStmts gid role sb so pg).filterParams ∧
    (groupUsersStmts gid role sb so pg).listParams
        = (groupUsersStmts gid role sb so pg).filterParams
          ++ [Val.vint pg.limit, Val.vint pg.offset] ∧
    (groupUsersStmts gid role sb so pg).conditions.length
        = (groupUsersStmts gid role sb so pg).filterParams.length ∧
    numberedFrom (groupUsersStmts gid role sb so pg).conditions = true ∧
    (groupUsersStmts gid role sb so pg).paramIndex
        = (groupUsersStmts gid role sb so pg).filterParams.length + 1 := by
  obtain ⟨h1, h2, h3⟩ := groupUsersBuilder_wf gid role
  refine ⟨?_, rfl, h2, h3, h1⟩
  show ((groupUsersBuilder gid role).queryParams
      ++ [Val.vint pg.limit, Val.vint pg.offset]).take
        ((groupUsersBuilder gid role).paramIndex - 1)
      = (groupUsersBuilder gid role).queryParams
  rw [h1, Nat.add_sub_cancel]
  exact List.take_left _ _

/-! ## Claim theorems -/

/-- **C1.** For every combination of optional filters — date range, userId,
amount bounds and groupId in `listSales`; date range in `getUserSales`;
date range and userId in `getGroupSales`; role in `getGroupUsers` — the
parameter list passed with the count statement equals exactly the filter
parameters bound in the main listing statement's WHERE clause, in the same
order and with the same placeholder numbering (the `k`-th condition fragment
ends with placeholder `$(k+1)`), and never includes the two pagination
parameters (limit, offset) appended to the listing statement's parameter
list: the listing parameters are exactly the filter parameters plus those
two, while the count parameters are exactly the filter parameters. -/
theorem c1_count_statement_reuses_filter_params :
    (∀ (sd ed uid : Option String) (mn mx : Option JsNum) (gid : Option String)
      (sb so : String) (pg : PaginationParams),
      (listSalesStmts sd ed uid mn mx gid sb so pg).countParams
          = (listSalesStmts sd ed uid mn mx gid sb so pg).filterParams ∧
      (listSalesStmts sd ed uid mn mx gid sb so pg).listParams
          = (listSalesStmts sd ed uid mn mx gid sb so pg).filterParams
            ++ [Val.vint pg.limit, Val.vint pg.offset] ∧
      (listSalesStmts sd ed uid mn mx gid sb so pg).conditions.length
          = (listSalesStmts sd ed uid mn mx gid sb so pg).filterParams.length ∧
      numberedFrom (listSalesStmts sd ed uid mn mx gid sb so pg).conditions = true ∧
      (listSalesStmts sd ed uid mn mx gid sb so pg).paramIndex
          = (listSalesStmts sd ed uid mn mx gid sb so pg).filterParams.length + 1) ∧
    (∀ (uid : Int) (sd ed : Option String) (sb so : String) (pg : PaginationParams),
      (userSalesStmts uid sd ed sb so pg).countParams
          = (userSalesStmts uid sd ed sb so pg).filterParams ∧
      (userSalesStmts uid sd ed sb so pg).listParams
          = (userSalesStmts uid sd ed sb so pg).filterParams
            ++ [Val.vint pg.limit, Val.vint pg.offset] ∧
      (userSalesStmts uid sd ed sb so pg).conditions.length
          = (userSalesStmts uid sd ed sb so pg).filterParams.length ∧
      numberedFrom (userSalesStmts uid sd ed sb so pg).conditions = true ∧
      (userSalesStmts uid sd ed sb so pg).paramIndex
          = (userSalesStmts uid sd ed sb so pg).filterParams.length + 1) ∧
    (∀ (gid : Int) (sd ed uidF : Option String) (sb so : String) (pg : PaginationParams),
      (groupSalesStmts gid sd ed uidF sb so pg).countParams
          = (groupSalesStmts gid sd ed uidF sb so pg).filterParams ∧
      (groupSalesStmts gid sd ed uidF sb so pg).listParams
          = (groupSalesStmts gid sd ed uidF sb so pg).filterParams
            ++ [Val.vint pg.limit, Val.vint pg.offset] ∧
      (groupSalesStmts gid sd ed uidF sb so pg).conditions.length
          = (groupSalesStmts gid sd ed uidF sb so pg).filterParams.length ∧
      numberedFrom (groupSalesStmts gid sd ed uidF sb so pg).conditions = true ∧
      (groupSalesStmts gid sd ed uidF sb so pg).paramIndex
          = (groupSalesStmts gid sd ed uidF sb so pg).filterParams.length + 1) ∧
    (∀ (gid : Int) (role : Option String) (sb so : String) (pg : PaginationParams),
      (groupUsersStmts gid role sb so pg).countParams
          = (groupUsersStmts gid role sb so pg).filterParams ∧
      (groupUsersStmts gid role sb so pg).listParams
          = (groupUsersStmts gid role sb so pg).filterParams
            ++ [Val.vint pg.limit, Val.vint pg.offset] ∧
      (groupUsersStmts gid role sb so pg).conditions.length
          = (groupUsersStmts gid role sb so pg).filterParams.length ∧
      numberedFrom (groupUsersStmts gid role sb so pg).conditions = true ∧
      (groupUsersStmts gid role sb so pg).paramIndex
          = (groupUsersStmts gid role sb so pg).filterParams.length + 1) :=
  ⟨listSalesStmts_count_props, userSalesStmts_count_props,
    groupSalesStmts_count_props, groupUsersStmts_count_props⟩


/-- **C2 counterexample.** `validateSortOrder("DESC", "asc")`: the candidate
`"DESC"` is a case-insensitive member of the allow-list, so the claim says
the validator returns the candidate; it actually returns the lowercased
candidate `"desc"`, which is neither the candidate nor the default. -/
theorem c2_sort_order_lowercases_counterexample :
    validateSortOrder (some "DESC") "asc" = "desc" ∧
    (["asc", "desc"].contains (toLowerStr "DESC")) = true ∧
    validateSortOrder (some "DESC") "asc" ≠ "DESC" ∧
    validateSortOrder (some "DESC") "asc" ≠ "asc" := by
  refine ⟨by decide, by decide, by decide, by decide⟩

/-- **C2 (amended).** For every caller-supplied sortBy/sortOrder/interval
value: sort columns and intervals are validated by case-sensitive membership
and returned verbatim, sort order by case-insensitive membership but
returned *lowercased* (not the candidate verbatim); any value outside the
allow-list (or a falsy empty string) silently falls back to the endpoint's
default, and the returned value is always either the default or a member of
the allow-list, so an out-of-list value never appears in the generated query
text and no error is ever raised (the validators are total functions). -/
theorem c2_allowlist_validators_amended :
    (∀ (s : String) (cols : List String) (d : String),
      s.isEmpty = false → cols.contains s = true → validateSortColumn (some s) cols d = s) ∧
    (∀ (o : Option String) (cols : List String) (d : String),
      (∀ s, o = some s → s.isEmpty = true ∨ cols.contains s = false) →
      validateSortColumn o cols d = d) ∧
    (∀ (s d : String), s.isEmpty = false →
      (["asc", "desc"].contains (toLowerStr s)) = true →
      validateSortOrder (some s) d = toLowerStr s) ∧
    (∀ (o : Option String) (d : String),
      (∀ s, o = some s → s.isEmpty = true ∨
        (["asc", "desc"].contains (toLowerStr s)) = false) →
      validateSortOrder o d = d) ∧
    (∀ (s d : String), s.isEmpty = false →
      (["day", "week", "month", "quarter", "year"].contains s) = true →
      validateInterval (some s) d = s) ∧
    (∀ (o : Option String) (d : String),
      (∀ s, o = some s → s.isEmpty = true ∨
        (["day", "week", "month", "quarter", "year"].contains s) = false) →
      validateInterval o d = d) ∧
    (∀ (o : Option String) (cols : List String) (d : String),
      validateSortColumn o cols d = d ∨ cols.contains (validateSortColumn o cols d) = true) ∧
    (∀ (o : Option String) (d : String),
      validateSortOrder o d = d ∨ (["asc", "desc"].contains (validateSortOrder o d)) = true) ∧
    (∀ (o : Option String) (d : String),
      validateInterval o d = d ∨
        (["day", "week", "month", "quarter", "year"].contains (validateInterval o d)) = true) := by
  refine ⟨?_, ?_, ?_, ?_, ?_, ?_, ?_, ?_, ?_⟩
  · intro s cols d hs hc
    show (if (!s.isEmpty && cols.contains s) = true then s else d) = s
    rw [if_pos (by rw [hs, hc]; rfl)]
  · intro o cols d h
    rcases o with _ | s
    · rfl
    · show (if (!s.isEmpty && cols.contains s) = true then s else d) = d
      rcases h s rfl with he | hc
      · rw [if_neg (by rw [he]; simp)]
      · rw [if_neg (by rw [hc]; simp)]
  · intro s d hs hc
    show (if (!s.isEmpty && ["asc", "desc"].contains (toLowerStr s)) = true
      then toLowerStr s else d) = toLowerStr s
    rw [if_pos (by rw [hs, hc]; rfl)]
  · intro o d h
    rcases o with _ | s
    · rfl
    · show (if (!s.isEmpty && ["asc", "desc"].contains (toLowerStr s)) = true
        then toLowerStr s else d) = d
      rcases h s rfl with he | hc
      · rw [if_neg (by rw [he]; simp)]
      · rw [if_neg (by rw [hc]; simp)]
  · intro s d hs hc
    show (if (!s.isEmpty && ["day", "week", "month", "quarter", "year"].contains s) = true
      then s else d) = s
    rw [if_pos (by rw [hs, hc]; rfl)]
  · intro o d h
    rcases o with _ | s
    · rfl
    · show (if (!s.isEmpty && ["day", "week", "month", "quarter", "year"].contains s) = true
        then s else d) = d
      rcases h s rfl with he | hc
      · rw [if_neg (by rw [he]; simp)]
      · rw [if_neg (by rw [hc]; simp)]
  · intro o cols d
    rcases o with _ | s
    · exact Or.inl rfl
    · show (if (!s.isEmpty && cols.contains s) = true then s else d) = d
        ∨ cols.contains (if (!s.isEmpty && cols.contains s) = true then s else d) = true
      by_cases hg : (!s.isEmpty && cols.contains s) = true
      · rw [if_pos hg]
        rw [Bool.and_eq_true] at hg
        exact Or.inr hg.2
      · rw [if_neg hg]
        exact Or.inl rfl
  · intro o d
    rcases o with _ | s
    · exact Or.inl rfl
    · show (if (!s.isEmpty && ["asc", "desc"].contains (toLowerStr s)) = true
          then toLowerStr s else d) = d
        ∨ (["asc", "desc"].contains
            (if (!s.isEmpty && ["asc", "desc"].contains (toLowerStr s)) = true
              then toLowerStr s else d)) = true
      by_cases hg : (!s.isEmpty && ["asc", "desc"].contains (toLowerStr s)) = true
      · rw [if_pos hg]
        rw [Bool.and_eq_true] at hg
        exact Or.inr hg.2
      · rw [if_neg hg]
        exact Or.inl rfl
  · intro o d
    rcases o with _ | s
    · exact Or.inl rfl
    · show (if (!s.isEmpty && ["day", "week", "month", "quarter", "year"].contains s) = true
          then s else d) = d
        ∨ (["day", "week", "month", "quarter", "year"].contains
            (if (!s.isEmpty && ["day", "week", "month", "quarter", "year"].contains s) = true
              then s else d)) = true
      by_cases hg : (!s.isEmpty
          && ["day", "week", "month", "quarter", "year"].contains s) = true
      · rw [if_pos hg]
        rw [Bool.and_eq_true] at hg
        exact Or.inr hg.2
      · rw [if_neg hg]
        exact Or.inl rfl

/-- **C2 witness.** The amended validator contract at concrete inputs. -/
theorem c2_allowlist_validators_amended_witness :
    validateSortColumn (some "amount") ["date", "amount"] "date" = "amount" ∧
    validateSortColumn (some "evil; DROP") ["date", "amount"] "date" = "date" ∧
    validateSortOrder (some "ASC") "desc" = "asc" ∧
    validateSortOrder (some "sideways") "desc" = "desc" ∧
    validateInterval (some "week") "month" = "week" ∧
    validateInterval (some "Week") "month" = "month" := by
  refine ⟨?_, ?_, ?_, ?_, ?_, ?_⟩
  · exact c2_allowlist_validators_amended.1 "amount" ["date", "amount"] "date"
      (by decide) (by decide)
  · apply c2_allowlist_validators_amended.2.1
    intro s hs
    cases hs
    right
    decide
  · exact (c2_allowlist_validators_amended.2.2.1 "ASC" "desc" (by decide) (by decide)).trans
      (by decide)
  · apply c2_allowlist_validators_amended.2.2.2.1
    intro s hs
    cases hs
    right
    decide
  · exact c2_allowlist_validators_amended.2.2.2.2.1 "week" "month" (by decide) (by decide)
  · apply c2_allowlist_validators_amended.2.2.2.2.2.1
    intro s hs
    cases hs
    right
    decide

theorem getUserSalesH_not_found (db : Db) (uid : Int) (req : UserSalesReq)
    (h : userExists db uid = false) :
    getUserSalesH db (some uid) req
      = { status := 404, error := some "User not found", dataRows := []
          pagination := ⟨0, 0, 0⟩, total := 0, filterStartDate := none, filterEndDate := none
          links := noLinks, queries := [Query.existence "users" uid] } := by
  simp only [getUserSalesH, h, Bool.false_eq_true, if_false]
  have hm : notFoundMessage "users" = "User not found" := by decide
  rw [hm]

theorem getUserSalesSummaryH_not_found (db : Db) (uid : Int) (sd ed : Option String)
    (h : userExists db uid = false) :
    getUserSalesSummaryH db (some uid) sd ed
      = aggFail 404 "User not found" [Query.existence "users" uid] := by
  simp only [getUserSalesSummaryH, h, Bool.false_eq_true, if_false]
  have hm : notFoundMessage "users" = "User not found" := by decide
  rw [hm]

theorem getUserPerformanceH_not_found (db : Db) (uid : Int) (sd ed iv : Option String)
    (h : userExists db uid = false) :
    getUserPerformanceH db (some uid) sd ed iv
      = aggFail 404 "User not found" [Query.existence "users" uid] := by
  simp only [getUserPerformanceH, h, Bool.false_eq_true, if_false]
  have hm : notFoundMessage "users" = "User not found" := by decide
  rw [hm]

theorem getGroupSalesH_not_found (db : Db) (gid : Int)
    (sd ed pg lim sb so uidF : Option String) (h : groupExists db gid = false) :
    getGroupSalesH db (some gid) sd ed pg lim sb so uidF
      = { status := 404, error := some "Group not found", dataRows := []
          pagination := ⟨0, 0, 0⟩, total := 0, filterStartDate := none, filterEndDate := none
          filterUserId := none, links := noLinks
          queries := [Query.existence "groups" gid] } := by
  simp only [getGroupSalesH, h, Bool.false_eq_true, if_false]
  have hm : notFoundMessage "groups" = "Group not found" := by decide
  rw [hm]

theorem getGroupSalesSummaryH_not_found (db : Db) (gid : Int) (sd ed : Option String)
    (h : groupExists db gid = false) :
    getGroupSalesSummaryH db (some gid) sd ed
      = aggFail 404 "Group not found" [Query.existence "groups" gid] := by
  simp only [getGroupSalesSummaryH, h, Bool.false_eq_true, if_false]
  have hm : notFoundMessage "groups" = "Group not found" := by decide
  rw [hm]

theorem getGroupPerformanceH_not_found (db : Db) (gid : Int) (sd ed iv : Option String)
    (h : groupExists db gid = false) :
    getGroupPerformanceH db (some gid) sd ed iv
      = aggFail 404 "Group not found" [Query.existence "groups" gid] := by
  simp only [getGroupPerformanceH, h, Bool.false_eq_true, if_false]
  have hm : notFoundMessage "groups" = "Group not found" := by decide
  rw [hm]

/-- **C3.** For every entity-scoped request (user or group sales, summary,
performance) whose path id matches no row in the entity table, the response
is 404 with an error message naming the entity kind (`"User not found"` /
`"Group not found"`), and the existence lookup is the only query issued
against the store — the query trace is exactly `[existence <table> <id>]`,
so none of the listing, count, summary, monthly, trend, ranking or
comparison statements executes. -/
theorem c3_not_found_fails_fast :
    (∀ (db : Db) (uid : Int) (req : UserSalesReq), userExists db uid = false →
      (getUserSalesH db (some uid) req).status = 404 ∧
      (getUserSalesH db (some uid) req).error = some "User not found" ∧
      (getUserSalesH db (some uid) req).queries = [Query.existence "users" uid]) ∧
    (∀ (db : Db) (uid : Int) (sd ed : Option String), userExists db uid = false →
      (getUserSalesSummaryH db (some uid) sd ed).status = 404 ∧
      (getUserSalesSummaryH db (some uid) sd ed).error = some "User not found" ∧
      (getUserSalesSummaryH db (some uid) sd ed).queries = [Query.existence "users" uid]) ∧
    (∀ (db : Db) (uid : Int) (sd ed iv : Option String), userExists db uid = false →
      (getUserPerformanceH db (some uid) sd ed iv).status = 404 ∧
      (getUserPerformanceH db (some uid) sd ed iv).error = some "User not found" ∧
      (getUserPerformanceH db (some uid) sd ed iv).queries = [Query.existence "users" uid]) ∧
    (∀ (db : Db) (gid : Int) (sd ed pg lim sb so uidF : Option String),
      groupExists db gid = false →
      (getGroupSalesH db (some gid) sd ed pg lim sb so uidF).status = 404 ∧
      (getGroupSalesH db (some gid) sd ed pg lim sb so uidF).error
          = some "Group not found" ∧
      (getGroupSalesH db (some gid) sd ed pg lim sb so uidF).queries
          = [Query.existence "groups" gid]) ∧
    (∀ (db : Db) (gid : Int) (sd ed : Option String), groupExists db gid = false →
      (getGroupSalesSummaryH db (some gid) sd ed).status = 404 ∧
      (getGroupSalesSummaryH db (some gid) sd ed).error = some "Group not found" ∧
      (getGroupSalesSummaryH db (some gid) sd ed).queries
          = [Query.existence "groups" gid]) ∧
    (∀ (db : Db) (gid : Int) (sd ed iv : Option String), groupExists db gid = false →
      (getGroupPerformanceH db (some gid) sd ed iv).status = 404 ∧
      (getGroupPerformanceH db (some gid) sd ed iv).error = some "Group not found" ∧
      (getGroupPerformanceH db (some gid) sd ed iv).queries
          = [Query.existence "groups" gid]) := by
  refine ⟨?_, ?_, ?_, ?_, ?_, ?_⟩
  · intro db uid req h
    rw [getUserSalesH_not_found db uid req h]
    exact ⟨rfl, rfl, rfl⟩
  · intro db uid sd ed h
    rw [getUserSalesSummaryH_not_found db uid sd ed h]
    exact ⟨rfl, rfl, rfl⟩
  · intro db uid sd ed iv h
    rw [getUserPerformanceH_not_found db uid sd ed iv h]
    exact ⟨rfl, rfl, rfl⟩
  · intro db gid sd ed pg lim sb so uidF h
    rw [getGroupSalesH_not_found db gid sd ed pg lim sb so uidF h]
    exact ⟨rfl, rfl, rfl⟩
  · intro db gid sd ed h
    rw [getGroupSalesSummaryH_not_found db gid sd ed h]
    exact ⟨rfl, rfl, rfl⟩
  · intro db gid sd ed iv h
    rw [getGroupPerformanceH_not_found db gid sd ed iv h]
    exact ⟨rfl, rfl, rfl⟩

/-- **C3 witness.** A store whose only user has id 1 and whose only group
has id 7: requests for user 42 and group 9 all 404 with the entity-naming
message after issuing only the existence lookup. -/
theorem c3_not_found_fails_fast_witness :
    (getUserSalesH ⟨[⟨1, "A", "rep"⟩], [⟨7, "G"⟩], [], []⟩ (some 42)
        ⟨none, none, none, none, none, none⟩).status = 404 ∧
    (getUserSalesSummaryH ⟨[⟨1, "A", "rep"⟩], [⟨7, "G"⟩], [], []⟩ (some 42)
        none none).error = some "User not found" ∧
    (getUserPerformanceH ⟨[⟨1, "A", "rep"⟩], [⟨7, "G"⟩], [], []⟩ (some 42)
        none none none).queries = [Query.existence "users" 42] ∧
    (getGroupSalesH ⟨[⟨1, "A", "rep"⟩], [⟨7, "G"⟩], [], []⟩ (some 9)
        none none none none none none none).status = 404 ∧
    (getGroupSalesSummaryH ⟨[⟨1, "A", "rep"⟩], [⟨7, "G"⟩], [], []⟩ (some 9)
        none none).error = some "Group not found" ∧
    (getGroupPerformanceH ⟨[⟨1, "A", "rep"⟩], [⟨7, "G"⟩], [], []⟩ (some 9)
        none none none).queries = [Query.existence "groups" 9] :=
  ⟨(c3_not_found_fails_fast.1 _ 42 _ (by decide)).1,
   (c3_not_found_fails_fast.2.1 _ 42 none none (by decide)).2.1,
   (c3_not_found_fails_fast.2.2.1 _ 42 none none none (by decide)).2.2,
   (c3_not_found_fails_fast.2.2.2.1 _ 9 none none none none none none none (by decide)).1,
   (c3_not_found_fails_fast.2.2.2.2.1 _ 9 none none (by decide)).2.1,
   (c3_not_found_fails_fast.2.2.2.2.2 _ 9 none none none (by decide)).2.2⟩

/-- **C4 counterexample.** With total 0 and limit 10, `pages = 0` and the
always-present `last` link points at page 0 — not at page 1 as claimed. -/
theorem c4_last_link_page_zero_counterexample :
    (formatPaginatedResponse () (⟨10, 0, 1⟩ : PaginationParams) 0
        "/api/metrics/sales" ()).pagePagination.pages = 0 ∧
    (formatPaginatedResponse () (⟨10, 0, 1⟩ : PaginationParams) 0
        "/api/metrics/sales" ()).links.last = "/api/metrics/sales?page=0&limit=10" ∧
    (formatPaginatedResponse () (⟨10, 0, 1⟩ : PaginationParams) 0
        "/api/metrics/sales" ()).links.last ≠ pageUrl "/api/metrics/sales" 1 10 := by
  exact ⟨by decide, by decide, by decide⟩

/-- **C4 (amended).** For every listing response built from page `p`,
limit `l > 0` and total count `T`: `pages = ⌈T / l⌉`; the `next` link is
present iff `p < pages`; the `prev` link is present iff `p > 1`; and the
`first` and `last` links are always present, `first` pointing at page 1 and
`last` pointing at page `pages` — so degenerately at page **0** (not page 1)
when `pages = 0`. -/
theorem c4_pagination_links_amended (pagination : PaginationParams) (total : Int)
    (baseUrl : String) (hl : 0 < pagination.limit) :
    (formatPaginatedResponse () pagination total baseUrl ()).pagePagination.pages
        = ⌈(total : ℚ) / ((pagination.limit : Int) : ℚ)⌉ ∧
    ((formatPaginatedResponse () pagination total baseUrl ()).links.next.isSome = true
        ↔ pagination.page
            < (formatPaginatedResponse () pagination total baseUrl ()).pagePagination.pages) ∧
    ((formatPaginatedResponse () pagination total baseUrl ()).links.prev.isSome = true
        ↔ 1 < pagination.page) ∧
    (formatPaginatedResponse () pagination total baseUrl ()).links.first
        = pageUrl baseUrl 1 pagination.limit ∧
    (formatPaginatedResponse () pagination total baseUrl ()).links.last
        = pageUrl baseUrl
            (formatPaginatedResponse () pagination total baseUrl ()).pagePagination.pages
            pagination.limit := by
  refine ⟨jsMathCeilDiv_eq_ceil total pagination.limit hl, ?_, ?_, rfl, rfl⟩
  · by_cases hp : pagination.page < jsMathCeilDiv total pagination.limit
    · simp [formatPaginatedResponse, hp]
    · simp [formatPaginatedResponse, hp]
  · by_cases hp : pagination.page > 1
    · simp [formatPaginatedResponse, hp]
    · simp [formatPaginatedResponse, hp]

/-- **C4 witness.** The amended link/pages contract at page 2, limit 10,
total 25. -/
theorem c4_pagination_links_amended_witness :
    0 < (⟨10, 10, 2⟩ : PaginationParams).limit ∧
    ((formatPaginatedResponse () (⟨10, 10, 2⟩ : PaginationParams) 25 "/u" ()).pagePagination.pages
        = ⌈((25 : Int) : ℚ) / (((⟨10, 10, 2⟩ : PaginationParams).limit : Int) : ℚ)⌉ ∧
      ((formatPaginatedResponse () (⟨10, 10, 2⟩ : PaginationParams) 25 "/u" ()).links.next.isSome
          = true
        ↔ (⟨10, 10, 2⟩ : PaginationParams).page
            < (formatPaginatedResponse () (⟨10, 10, 2⟩ : PaginationParams) 25 "/u"
                ()).pagePagination.pages) ∧
      ((formatPaginatedResponse () (⟨10, 10, 2⟩ : PaginationParams) 25 "/u" ()).links.prev.isSome
          = true
        ↔ 1 < (⟨10, 10, 2⟩ : PaginationParams).page) ∧
      (formatPaginatedResponse () (⟨10, 10, 2⟩ : PaginationParams) 25 "/u" ()).links.first
        = pageUrl "/u" 1 (⟨10, 10, 2⟩ : PaginationParams).limit ∧
      (formatPaginatedResponse () (⟨10, 10, 2⟩ : PaginationParams) 25 "/u" ()).links.last
        = pageUrl "/u"
            (formatPaginatedResponse () (⟨10, 10, 2⟩ : PaginationParams) 25 "/u"
              ()).pagePagination.pages
            (⟨10, 10, 2⟩ : PaginationParams).limit) :=
  ⟨by decide, c4_pagination_links_amended ⟨10, 10, 2⟩ 25 "/u" (by decide)⟩

/-- **C5 counterexample.** For the raw input `page = "-5"` the calculator
returns `page = -5` (and `offset = -600`), not `max(1, -5) = 1`: negative
parsed pages are not clamped. -/
theorem c5_negative_page_not_clamped_counterexample :
    (getPaginationParams (some "-5") none).page = -5 ∧
    (getPaginationParams (some "-5") none).offset = -600 ∧
    max 1 (jsOrI (jsParseIntOpt (some "-5")) 1) = 1 ∧
    (getPaginationParams (some "-5") none).page
      ≠ max 1 (jsOrI (jsParseIntOpt (some "-5")) 1) := by
  exact ⟨by decide, by decide, by decide, by decide⟩

/-- **C5 (amended).** For every raw page and limit input (absent,
non-numeric, zero, negative or numeric): `page = parsedPage or 1` with **no
lower clamp** — a parsed nonzero value, negative included, passes through —
`limit = parsedLimit or 100` likewise, and `offset = (page - 1) * limit`
(negative for negative pages).  `parsed` is `Number.parseInt(·, 10)`, with
`NaN` and `0` falling back to the default. -/
theorem c5_pagination_params_amended :
    (∀ lim : Option String, (getPaginationParams none lim).page = 1) ∧
    (∀ (s : String) (lim : Option String), jsParseInt s = none →
      (getPaginationParams (some s) lim).page = 1) ∧
    (∀ (s : String) (lim : Option String), jsParseInt s = some 0 →
      (getPaginationParams (some s) lim).page = 1) ∧
    (∀ (s : String) (lim : Option String) (n : Int), jsParseInt s = some n → n ≠ 0 →
      (getPaginationParams (some s) lim).page = n) ∧
    (∀ pg : Option String, (getPaginationParams pg none).limit = 100) ∧
    (∀ (pg : Option String) (s : String), jsParseInt s = none →
      (getPaginationParams pg (some s)).limit = 100) ∧
    (∀ (pg : Option String) (s : String), jsParseInt s = some 0 →
      (getPaginationParams pg (some s)).limit = 100) ∧
    (∀ (pg : Option String) (s : String) (n : Int), jsParseInt s = some n → n ≠ 0 →
      (getPaginationParams pg (some s)).limit = n) ∧
    (∀ pg lim : Option String,
      (getPaginationParams pg lim).offset
        = ((getPaginationParams pg lim).page - 1) * (getPaginationParams pg lim).limit) := by
  refine ⟨?_, ?_, ?_, ?_, ?_, ?_, ?_, ?_, ?_⟩
  · intro lim
    rfl
  · intro s lim h
    show jsOrI (jsParseIntOpt (some s)) 1 = 1
    show jsOrI (jsParseInt s) 1 = 1
    rw [h]
    rfl
  · intro s lim h
    show jsOrI (jsParseInt s) 1 = 1
    rw [h]
    rfl
  · intro s lim n h hn
    show jsOrI (jsParseInt s) 1 = n
    rw [h]
    exact jsOrI_some_ne_zero n 1 hn
  · intro pg
    show jsOrI (jsParseIntOpt none) 100 = 100
    rfl
  · intro pg s h
    show jsOrI (jsParseInt s) 100 = 100
    rw [h]
    rfl
  · intro pg s h
    show jsOrI (jsParseInt s) 100 = 100
    rw [h]
    rfl
  · intro pg s n h hn
    show jsOrI (jsParseInt s) 100 = n
    rw [h]
    exact jsOrI_some_ne_zero n 100 hn
  · intro pg lim
    rfl

/-- **C5 witness.** The amended calculator contract at concrete raw inputs:
absent, garbage, zero, and a negative numeric page. -/
theorem c5_pagination_params_amended_witness :
    (getPaginationParams none none).page = 1 ∧
    (getPaginationParams (some "abc") none).page = 1 ∧
    (getPaginationParams (some "0") (some "50")).page = 1 ∧
    (getPaginationParams (some "-5") none).page = -5 ∧
    (getPaginationParams (some "2") (some "0")).limit = 100 ∧
    (getPaginationParams (some "2") (some "50")).limit = 50 ∧
    (getPaginationParams (some "-5") none).offset
      = ((getPaginationParams (some "-5") none).page - 1)
        * (getPaginationParams (some "-5") none).limit :=
  ⟨c5_pagination_params_amended.1 none,
   c5_pagination_params_amended.2.1 "abc" none (by decide),
   c5_pagination_params_amended.2.2.1 "0" (some "50") (by decide),
   c5_pagination_params_amended.2.2.2.1 "-5" none (-5) (by decide) (by decide),
   c5_pagination_params_amended.2.2.2.2.2.2.1 (some "2") "0" (by decide),
   c5_pagination_params_amended.2.2.2.2.2.2.2.1 (some "2") "50" 50 (by decide) (by decide),
   c5_pagination_params_amended.2.2.2.2.2.2.2.2 (some "-5") none⟩

set_option maxRecDepth 8000 in
/-- **C6.** In the all-users performance aggregation, when both a role
filter and a groupId filter are supplied, the trends statement binds five
parameters with the groupId value in fifth position, yet the generated
statement text never contains the placeholder `$5` — instead it contains
the uninterpolated literal `$$\x7brole ? 5 : 4\x7d` (the index expression sat
inside a plain double-quoted string where `$\x7b...\x7d` has no meaning), so
the conditional parameter-index arithmetic does not match the bound
positions. -/
theorem c6_trends_group_placeholder_mismatch (r g iv sd ed : String)
    (hr : r.isEmpty = false) (hg : g.isEmpty = false) :
    allUsersTrendsParams iv sd ed (some r) (some g)
        = [Val.vstr iv, Val.vstr sd, Val.vstr ed, Val.vstr r, Val.vstr g] ∧
    (allUsersTrendsParams iv sd ed (some r) (some g)).length = 5 ∧
    hasSubstring "$5" (allUsersTrendsQuery (some r) (some g)) = false ∧
    hasSubstring " AND ug.group_id = $$\x7brole ? 5 : 4\x7d"
        (allUsersTrendsQuery (some r) (some g)) = true ∧
    hasSubstring " AND u.role = $4" (allUsersTrendsQuery (some r) (some g)) = true := by
  have htr : truthy (some r) = true := by simp [truthy, hr]
  have htg : truthy (some g) = true := by simp [truthy, hg]
  have hq : allUsersTrendsQuery (some r) (some g)
      = allUsersTrendsQuery (some "x") (some "x") := by
    unfold allUsersTrendsQuery
    rw [htr, htg]
    rfl
  have hp : allUsersTrendsParams iv sd ed (some r) (some g)
      = [Val.vstr iv, Val.vstr sd, Val.vstr ed, Val.vstr r, Val.vstr g] := by
    unfold allUsersTrendsParams optParamStr
    simp [hr, hg]
  refine ⟨hp, by rw [hp]; rfl, ?_, ?_, ?_⟩ <;> rw [hq] <;> decide

/-- **C6 witness.** The mismatch at role `"rep"`, groupId `"3"`, interval
`"month"` over the default window. -/
theorem c6_trends_group_placeholder_mismatch_witness :
    "rep".isEmpty = false ∧ "3".isEmpty = false ∧
    (allUsersTrendsParams "month" "2021-01-01" "2021-12-31" (some "rep") (some "3")
        = [Val.vstr "month", Val.vstr "2021-01-01", Val.vstr "2021-12-31",
           Val.vstr "rep", Val.vstr "3"] ∧
      (allUsersTrendsParams "month" "2021-01-01" "2021-12-31" (some "rep")
          (some "3")).length = 5 ∧
      hasSubstring "$5" (allUsersTrendsQuery (some "rep") (some "3")) = false ∧
      hasSubstring " AND ug.group_id = $$\x7brole ? 5 : 4\x7d"
          (allUsersTrendsQuery (some "rep") (some "3")) = true ∧
      hasSubstring " AND u.role = $4" (allUsersTrendsQuery (some "rep") (some "3")) = true) :=
  ⟨by decide, by decide,
   c6_trends_group_placeholder_mismatch "rep" "3" "month" "2021-01-01" "2021-12-31"
     (by decide) (by decide)⟩

/-- **C7 counterexample.** For the malformed numeric bound
`minAmount = "abc"` the engine neither substitutes a default nor drops the
bound: `parseFloat("abc")` is `NaN`, `NaN !== null` holds, so `listSales`
pushes the condition `s.amount >= $1` and binds `NaN` as its parameter. -/
theorem c7_nan_amount_bound_counterexample :
    jsParseFloat "abc" = JsNum.nan ∧
    (listSalesH ⟨[], [], [], []⟩
        ⟨none, none, none, none, none, none, some "abc", none, none, none⟩).stmts.conditions
      = ["s.amount >= $1"] ∧
    (listSalesH ⟨[], [], [], []⟩
        ⟨none, none, none, none, none, none, some "abc", none, none, none⟩).stmts.filterParams
      = [Val.vnum JsNum.nan] := by
  exact ⟨by decide, by decide, by decide⟩

/-- **C7 (amended).** `listSales` never answers an error for a malformed
optional filter: every request gets status 200 with no error body (a 500
needs a store failure).  An unparseable date falls back to `null` and its
bound is dropped; an out-of-list sort column or order silently falls back,
so the ORDER BY identifiers always come from the allow-lists.  But a
non-numeric `minAmount`/`maxAmount` is **not** dropped and gets no default:
`parseFloat` yields `NaN`, which is not `null`, so the amount condition is
still added with `NaN` as its bound parameter. -/
theorem c7_validation_fallback_amended :
    (∀ (db : Db) (req : ListSalesReq), (listSalesH db req).status = 200 ∧
      (listSalesH db req).error = none) ∧
    (∀ (req : ListSalesReq) (s : String), req.startDate = some s → newDateValid s = false →
      (listSalesResolve req).validStartDate = none) ∧
    (∀ (req : ListSalesReq) (s : String), req.endDate = some s → newDateValid s = false →
      (listSalesResolve req).validEndDate = none) ∧
    (∀ req : ListSalesReq,
      (["date", "amount", "user_id"].contains (listSalesResolve req).validSortBy) = true) ∧
    (∀ req : ListSalesReq,
      (["asc", "desc"].contains (listSalesResolve req).validSortOrder) = true) ∧
    (∀ (req : ListSalesReq) (m : String), req.minAmount = some m → m.isEmpty = false →
      jsParseFloat m = JsNum.nan →
      (listSalesResolve req).validMinAmount = some JsNum.nan) ∧
    (∀ (req : ListSalesReq) (m : String), req.maxAmount = some m → m.isEmpty = false →
      jsParseFloat m = JsNum.nan →
      (listSalesResolve req).validMaxAmount = some JsNum.nan) := by
  refine ⟨?_, ?_, ?_, ?_, ?_, ?_, ?_⟩
  · intro db req
    exact ⟨rfl, rfl⟩
  · intro req s hs hd
    show parseDate req.startDate none = none
    rw [hs]
    show (if newDateValid s = true then some s else (none : Option String)) = none
    rw [hd]
    rfl
  · intro req s hs hd
    show parseDate req.endDate none = none
    rw [hs]
    show (if newDateValid s = true then some s else (none : Option String)) = none
    rw [hd]
    rfl
  · intro req
    show (["date", "amount", "user_id"].contains
      (validateSortColumn req.sortBy ["date", "amount", "user_id"] "date")) = true
    rcases req.sortBy with _ | s
    · decide
    · show (["date", "amount", "user_id"].contains
        (if (!s.isEmpty && ["date", "amount", "user_id"].contains s) = true
          then s else "date")) = true
      by_cases hg : (!s.isEmpty && ["date", "amount", "user_id"].contains s) = true
      · rw [if_pos hg]
        rw [Bool.and_eq_true] at hg
        exact hg.2
      · rw [if_neg hg]
        decide
  · intro req
    show (["asc", "desc"].contains (validateSortOrder req.sortOrder "desc")) = true
    rcases req.sortOrder with _ | s
    · decide
    · show (["asc", "desc"].contains
        (if (!s.isEmpty && ["asc", "desc"].contains (toLowerStr s)) = true
          then toLowerStr s else "desc")) = true
      by_cases hg : (!s.isEmpty && ["asc", "desc"].contains (toLowerStr s)) = true
      · rw [if_pos hg]
        rw [Bool.and_eq_true] at hg
        exact hg.2
      · rw [if_neg hg]
        decide
  · intro req m hm hne hnan
    show jsOptParseFloat req.minAmount = some JsNum.nan
    rw [hm]
    show (if m.isEmpty = true then none else some (jsParseFloat m)) = some JsNum.nan
    rw [hne, hnan]
    rfl
  · intro req m hm hne hnan
    show jsOptParseFloat req.maxAmount = some JsNum.nan
    rw [hm]
    show (if m.isEmpty = true then none else some (jsParseFloat m)) = some JsNum.nan
    rw [hne, hnan]
    rfl

/-- **C7 witness.** The amended fallback behavior at a request whose date,
sort column and minAmount are all malformed. -/
theorem c7_validation_fallback_amended_witness :
    (listSalesH ⟨[], [], [], []⟩
        ⟨none, none, some "not a date", none, none, none, some "abc", none,
         some "evil", none⟩).status = 200 ∧
    (listSalesResolve
        ⟨none, none, some "not a date", none, none, none, some "abc", none,
         some "evil", none⟩).validStartDate = none ∧
    (["date", "amount", "user_id"].contains
      (listSalesResolve
        ⟨none, none, some "not a date", none, none, none, some "abc", none,
         some "evil", none⟩).validSortBy) = true ∧
    (listSalesResolve
        ⟨none, none, some "not a date", none, none, none, some "abc", none,
         some "evil", none⟩).validMinAmount = some JsNum.nan :=
  ⟨(c7_validation_fallback_amended.1 ⟨[], [], [], []⟩ _).1,
   c7_validation_fallback_amended.2.1 _ "not a date" rfl (by decide),
   c7_validation_fallback_amended.2.2.2.1 _,
   c7_validation_fallback_amended.2.2.2.2.2.1 _ "abc" rfl (by decide) (by decide)⟩

/-- **C10.** The date guard accepts any string the host `Date` parser
accepts — not only ISO dates: the long-form `"March 1, 2021"` passes —
and when it accepts it returns the raw input string verbatim, with no
normalization, so the accepted raw string is what gets bound into queries
and echoed in `meta.filters`; only an unparseable or absent value yields
the fallback. -/
theorem c10_date_guard_verbatim :
    (∀ (s : String) (fb : Option String), newDateValid s = true →
      parseDate (some s) fb = some s) ∧
    (∀ (s : String) (fb : Option String), newDateValid s = false →
      parseDate (some s) fb = fb) ∧
    (∀ fb : Option String, parseDate none fb = fb) ∧
    newDateValid "March 1, 2021" = true ∧
    isoDateValid "March 1, 2021" = false ∧
    parseDate (some "March 1, 2021") (some "2021-01-01") = some "March 1, 2021" ∧
    parseDate (some "2021-02-01") none = some "2021-02-01" ∧
    parseDate (some "not a date") (some "2021-01-01") = some "2021-01-01" := by
  refine ⟨?_, ?_, ?_, by decide, by decide, by decide, by decide, by decide⟩
  · intro s fb h
    show (if newDateValid s = true then some s else fb) = some s
    rw [h]
    rfl
  · intro s fb h
    show (if newDateValid s = true then some s else fb) = fb
    rw [h]
    rfl
  · intro fb
    rfl

/-- **C10 witness.** Verbatim acceptance applied at the non-ISO long-form
date and fallback applied at garbage. -/
theorem c10_date_guard_verbatim_witness :
    newDateValid "March 1, 2021" = true ∧
    parseDate (some "March 1, 2021") none = some "March 1, 2021" ∧
    newDateValid "2021-02-30" = false ∧
    parseDate (some "2021-02-30") (some "2021-01-01") = some "2021-01-01" :=
  ⟨by decide, c10_date_guard_verbatim.1 "March 1, 2021" none (by decide),
   by decide, c10_date_guard_verbatim.2.1 "2021-02-30" (some "2021-01-01") (by decide)⟩

/-- **C9 counterexample.** A group-performance request (`interval=week`,
default 2021 window) against a store whose only sale lies outside the
window: the response `data` object carries exactly the fields `trends`,
`top_performers` and `comparison` — there is no `data.summary` field at
all, so `data.summary.total_sales = 0` cannot hold. -/
theorem c9_no_summary_field_counterexample :
    ((getGroupPerformanceH (⟨[⟨1, "A", "rep"⟩], [⟨7, "G"⟩], [(1, 7)], [⟨1, 1, 10, "2020-06-15"⟩]⟩ : Db) (some 7)
        none none (some "week")).data.map Prod.fst)
        = ["trends", "top_performers", "comparison"] ∧
    ((getGroupPerformanceH (⟨[⟨1, "A", "rep"⟩], [⟨7, "G"⟩], [(1, 7)], [⟨1, 1, 10, "2020-06-15"⟩]⟩ : Db) (some 7)
        none none (some "week")).data.lookup "summary").isNone = true := by
  exact ⟨by decide, by decide⟩

/-- **C9 (amended).** For a group performance request (`interval=week`)
over a date window matching zero sales rows for an existing group, the
response is HTTP 200 (not an error) and `data.trends = []` (an empty
sequence), with `data.top_performers` and `data.comparison` likewise empty;
the group-performance body has no `data.summary` field (a scalar summary
exists only on the user performance and sales-summary endpoints). -/
theorem c9_group_performance_amended :
    (getGroupPerformanceH (⟨[⟨1, "A", "rep"⟩], [⟨7, "G"⟩], [(1, 7)], [⟨1, 1, 10, "2020-06-15"⟩]⟩ : Db) (some 7)
        none none (some "week")).status = 200 ∧
    (getGroupPerformanceH (⟨[⟨1, "A", "rep"⟩], [⟨7, "G"⟩], [(1, 7)], [⟨1, 1, 10, "2020-06-15"⟩]⟩ : Db) (some 7)
        none none (some "week")).error = none ∧
    (getGroupPerformanceH (⟨[⟨1, "A", "rep"⟩], [⟨7, "G"⟩], [(1, 7)], [⟨1, 1, 10, "2020-06-15"⟩]⟩ : Db) (some 7)
        none none (some "week")).data.lookup "trends" = some (Json.jarr []) ∧
    (getGroupPerformanceH (⟨[⟨1, "A", "rep"⟩], [⟨7, "G"⟩], [(1, 7)], [⟨1, 1, 10, "2020-06-15"⟩]⟩ : Db) (some 7)
        none none (some "week")).data.lookup "top_performers" = some (Json.jarr []) ∧
    (getGroupPerformanceH (⟨[⟨1, "A", "rep"⟩], [⟨7, "G"⟩], [(1, 7)], [⟨1, 1, 10, "2020-06-15"⟩]⟩ : Db) (some 7)
        none none (some "week")).data.lookup "comparison" = some (Json.jarr []) ∧
    (getGroupPerformanceH (⟨[⟨1, "A", "rep"⟩], [⟨7, "G"⟩], [(1, 7)], [⟨1, 1, 10, "2020-06-15"⟩]⟩ : Db) (some 7)
        none none (some "week")).data.lookup "summary" = none := by
  refine ⟨rfl, rfl, rfl, rfl, rfl, rfl⟩

/-! ## Round-trip lemmas (claim C8 machinery) -/

theorem getPaginationParams_roundtrip (pg lim : Option String) :
    getPaginationParams (some (jsIntToString (getPaginationParams pg lim).page))
      (some (jsIntToString (getPaginationParams pg lim).limit))
      = getPaginationParams pg lim := by
  have hpne : (getPaginationParams pg lim).page ≠ 0 := jsOrI_ne_zero _ _ one_ne_zero
  have hlne : (getPaginationParams pg lim).limit ≠ 0 := jsOrI_ne_zero _ _ (by norm_num)
  have h1 : jsParseIntOpt (some (jsIntToString (getPaginationParams pg lim).page))
      = some (getPaginationParams pg lim).page := jsParseInt_jsIntToString _
  have h2 : jsParseIntOpt (some (jsIntToString (getPaginationParams pg lim).limit))
      = some (getPaginationParams pg lim).limit := jsParseInt_jsIntToString _
  show (⟨jsOrI (jsParseIntOpt (some (jsIntToString (getPaginationParams pg lim).limit))) 100,
      (jsOrI (jsParseIntOpt (some (jsIntToString (getPaginationParams pg lim).page))) 1 - 1)
        * jsOrI (jsParseIntOpt (some (jsIntToString (getPaginationParams pg lim).limit))) 100,
      jsOrI (jsParseIntOpt (some (jsIntToString (getPaginationParams pg lim).page))) 1⟩
      : PaginationParams)
    = getPaginationParams pg lim
  rw [h1, h2, jsOrI_some_ne_zero _ 1 hpne, jsOrI_some_ne_zero _ 100 hlne]
  rfl

theorem getUserSalesOk_self_link (db : Db) (uid : Int) (req : UserSalesReq) :
    (getUserSalesOk db uid req).links.self
      = pageUrl ("/api/metrics/users/" ++ jsIntToString uid ++ "/sales")
          (getPaginationParams req.page req.limit).page
          (getPaginationParams req.page req.limit).limit := rfl

theorem getUserSalesOk_congr (db : Db) (uid : Int) (ra rb : UserSalesReq)
    (hs : parseDate ra.startDate none = parseDate rb.startDate none)
    (he : parseDate ra.endDate none = parseDate rb.endDate none)
    (hb : validateSortColumn ra.sortBy ["date", "amount"] "date"
        = validateSortColumn rb.sortBy ["date", "amount"] "date")
    (ho : validateSortOrder ra.sortOrder "desc" = validateSortOrder rb.sortOrder "desc")
    (hp : getPaginationParams ra.page ra.limit = getPaginationParams rb.page rb.limit) :
    getUserSalesOk db uid ra = getUserSalesOk db uid rb := by
  unfold getUserSalesOk
  rw [hs, he, hb, ho, hp]

theorem getUserSalesH_found (db : Db) (uid : Int) (req : UserSalesReq)
    (h : userExists db uid = true) :
    getUserSalesH db (some uid) req = getUserSalesOk db uid req := by
  simp only [getUserSalesH, h, if_true]

/-- **C8 counterexample.** Store with two sales for user 42.  Request A
(`limit=1&sortOrder=asc`) answers row 1 and `links.self =
".../sales?page=1&limit=1"`; a request with an added `startDate` filter gets
the *identical* `links.self` (links are not built from the filter values);
and resubmitting exactly what `links.self` encodes together with the
filters echoed in `meta.filters` (both null — the sort parameters are
echoed nowhere) yields row 2 instead of row 1: the round-trip does not
reproduce the result set. -/
theorem c8_roundtrip_counterexample :
    (getUserSalesH (⟨[⟨42, "Z", "rep"⟩], [], [], [⟨1, 42, 10, "2021-01-15"⟩,
        ⟨2, 42, 20, "2021-02-10"⟩]⟩ : Db) (some 42)
        ⟨none, none, none, some "1", none, some "asc"⟩).links.self
      = "/api/metrics/users/42/sales?page=1&limit=1" ∧
    (getUserSalesH (⟨[⟨42, "Z", "rep"⟩], [], [], [⟨1, 42, 10, "2021-01-15"⟩,
        ⟨2, 42, 20, "2021-02-10"⟩]⟩ : Db) (some 42)
        ⟨some "2021-02-01", none, none, some "1", none, some "asc"⟩).links.self
      = "/api/metrics/users/42/sales?page=1&limit=1" ∧
    (getUserSalesH (⟨[⟨42, "Z", "rep"⟩], [], [], [⟨1, 42, 10, "2021-01-15"⟩,
        ⟨2, 42, 20, "2021-02-10"⟩]⟩ : Db) (some 42)
        ⟨none, none, none, some "1", none, some "asc"⟩).filterStartDate = none ∧
    (getUserSalesH (⟨[⟨42, "Z", "rep"⟩], [], [], [⟨1, 42, 10, "2021-01-15"⟩,
        ⟨2, 42, 20, "2021-02-10"⟩]⟩ : Db) (some 42)
        ⟨none, none, none, some "1", none, some "asc"⟩).filterEndDate = none ∧
    (getUserSalesH (⟨[⟨42, "Z", "rep"⟩], [], [], [⟨1, 42, 10, "2021-01-15"⟩,
        ⟨2, 42, 20, "2021-02-10"⟩]⟩ : Db) (some 42)
        ⟨none, none, none, some "1", none, some "asc"⟩).dataRows
      = [⟨1, 10, "2021-01-15"⟩] ∧
    (getUserSalesH (⟨[⟨42, "Z", "rep"⟩], [], [], [⟨1, 42, 10, "2021-01-15"⟩,
        ⟨2, 42, 20, "2021-02-10"⟩]⟩ : Db) (some 42)
        ⟨none, none, some "1", some "1", none, none⟩).dataRows
      = [⟨2, 20, "2021-02-10"⟩] ∧
    (getUserSalesH (⟨[⟨42, "Z", "rep"⟩], [], [], [⟨1, 42, 10, "2021-01-15"⟩,
        ⟨2, 42, 20, "2021-02-10"⟩]⟩ : Db) (some 42)
        ⟨none, none, some "1", some "1", none, none⟩).dataRows
      ≠ (getUserSalesH (⟨[⟨42, "Z", "rep"⟩], [], [], [⟨1, 42, 10, "2021-01-15"⟩,
        ⟨2, 42, 20, "2021-02-10"⟩]⟩ : Db) (some 42)
        ⟨none, none, none, some "1", none, some "asc"⟩).dataRows := by
  exact ⟨by decide, by decide, by decide, by decide, by decide, by decide, by decide⟩

/-- **C8 (amended).** `links.self` is built from the resolved *pagination*
values only — it is identical under different date filters and never
encodes a filter — while `meta.filters` echoes the resolved dates.  The
round-trip holds only for the part that is echoed somewhere: for a request
whose sort parameters are absent (the defaults — sort is echoed nowhere),
resubmitting the page/limit encoded in `links.self` together with the dates
echoed in `meta.filters` reproduces the identical row list. -/
theorem c8_links_roundtrip_amended (db : Db) (uid : Int)
    (sd ed sd' ed' pg lim : Option String) :
    (getUserSalesH db (some uid) ⟨sd, ed, pg, lim, none, none⟩).links.self
        = (getUserSalesH db (some uid) ⟨sd', ed', pg, lim, none, none⟩).links.self ∧
    (userExists db uid = true →
      (getUserSalesH db (some uid) ⟨sd, ed, pg, lim, none, none⟩).links.self
        = pageUrl ("/api/metrics/users/" ++ jsIntToString uid ++ "/sales")
            (getPaginationParams pg lim).page (getPaginationParams pg lim).limit) ∧
    (getUserSalesH db (some uid)
        ⟨(getUserSalesH db (some uid) ⟨sd, ed, pg, lim, none, none⟩).filterStartDate,
         (getUserSalesH db (some uid) ⟨sd, ed, pg, lim, none, none⟩).filterEndDate,
         some (jsIntToString
            (getUserSalesH db (some uid) ⟨sd, ed, pg, lim, none, none⟩).pagination.page),
         some (jsIntToString
            (getUserSalesH db (some uid) ⟨sd, ed, pg, lim, none, none⟩).pagination.limit),
         none, none⟩).dataRows
      = (getUserSalesH db (some uid) ⟨sd, ed, pg, lim, none, none⟩).dataRows := by
  by_cases hex : userExists db uid = true
  · rw [getUserSalesH_found db uid ⟨sd, ed, pg, lim, none, none⟩ hex,
      getUserSalesH_found db uid ⟨sd', ed', pg, lim, none, none⟩ hex,
      getUserSalesH_found db uid _ hex]
    refine ⟨?_, ?_, ?_⟩
    · rw [getUserSalesOk_self_link, getUserSalesOk_self_link]
    · intro _
      rw [getUserSalesOk_self_link]
    · have hcongr : getUserSalesOk db uid
          ⟨(getUserSalesOk db uid ⟨sd, ed, pg, lim, none, none⟩).filterStartDate,
           (getUserSalesOk db uid ⟨sd, ed, pg, lim, none, none⟩).filterEndDate,
           some (jsIntToString
              (getUserSalesOk db uid ⟨sd, ed, pg, lim, none, none⟩).pagination.page),
           some (jsIntToString
              (getUserSalesOk db uid ⟨sd, ed, pg, lim, none, none⟩).pagination.limit),
           none, none⟩
          = getUserSalesOk db uid ⟨sd, ed, pg, lim, none, none⟩ := by
        apply getUserSalesOk_congr
        · show parseDate (parseDate sd none) none = parseDate sd none
          exact parseDate_idem sd
        · show parseDate (parseDate ed none) none = parseDate ed none
          exact parseDate_idem ed
        · rfl
        · rfl
        · show getPaginationParams
            (some (jsIntToString (getPaginationParams pg lim).page))
            (some (jsIntToString (getPaginationParams pg lim).limit))
            = getPaginationParams pg lim
          exact getPaginationParams_roundtrip pg lim
      exact congrArg UserSalesRes.dataRows hcongr
  · have hex' : userExists db uid = false := by
      cases h : userExists db uid
      · rfl
      · exact absurd h hex
    rw [getUserSalesH_not_found db uid ⟨sd, ed, pg, lim, none, none⟩ hex',
      getUserSalesH_not_found db uid ⟨sd', ed', pg, lim, none, none⟩ hex',
      getUserSalesH_not_found db uid _ hex']
    exact ⟨rfl, fun h => absurd h hex, rfl⟩

/-- **C8 witness.** The amended contract at the counterexample store with
default sorting: the self link ignores the date filter and the resubmitted
request reproduces the same rows. -/
theorem c8_links_roundtrip_amended_witness :
    (getUserSalesH (⟨[⟨42, "Z", "rep"⟩], [], [], [⟨1, 42, 10, "2021-01-15"⟩,
        ⟨2, 42, 20, "2021-02-10"⟩]⟩ : Db) (some 42)
        ⟨some "2021-02-01", none, none, some "1", none, none⟩).links.self
      = (getUserSalesH (⟨[⟨42, "Z", "rep"⟩], [], [], [⟨1, 42, 10, "2021-01-15"⟩,
        ⟨2, 42, 20, "2021-02-10"⟩]⟩ : Db) (some 42)
        ⟨none, some "2021-02-20", none, some "1", none, none⟩).links.self ∧
    userExists (⟨[⟨42, "Z", "rep"⟩], [], [], [⟨1, 42, 10, "2021-01-15"⟩,
        ⟨2, 42, 20, "2021-02-10"⟩]⟩ : Db) 42 = true ∧
    (getUserSalesH (⟨[⟨42, "Z", "rep"⟩], [], [], [⟨1, 42, 10, "2021-01-15"⟩,
        ⟨2, 42, 20, "2021-02-10"⟩]⟩ : Db) (some 42)
        ⟨some "2021-02-01", none, none, some "1", none, none⟩).links.self
      = pageUrl ("/api/metrics/users/" ++ jsIntToString 42 ++ "/sales")
          (getPaginationParams none (some "1")).page
          (getPaginationParams none (some "1")).limit ∧
    (getUserSalesH (⟨[⟨42, "Z", "rep"⟩], [], [], [⟨1, 42, 10, "2021-01-15"⟩,
        ⟨2, 42, 20, "2021-02-10"⟩]⟩ : Db) (some 42)
        ⟨(getUserSalesH (⟨[⟨42, "Z", "rep"⟩], [], [], [⟨1, 42, 10, "2021-01-15"⟩,
            ⟨2, 42, 20, "2021-02-10"⟩]⟩ : Db) (some 42)
            ⟨some "2021-02-01", none, none, some "1", none, none⟩).filterStartDate,
         (getUserSalesH (⟨[⟨42, "Z", "rep"⟩], [], [], [⟨1, 42, 10, "2021-01-15"⟩,
            ⟨2, 42, 20, "2021-02-10"⟩]⟩ : Db) (some 42)
            ⟨some "2021-02-01", none, none, some "1", none, none⟩).filterEndDate,
         some (jsIntToString
            (getUserSalesH (⟨[⟨42, "Z", "rep"⟩], [], [], [⟨1, 42, 10, "2021-01-15"⟩,
              ⟨2, 42, 20, "2021-02-10"⟩]⟩ : Db) (some 42)
              ⟨some "2021-02-01", none, none, some "1", none, none⟩).pagination.page),
         some (jsIntToString
            (getUserSalesH (⟨[⟨42, "Z", "rep"⟩], [], [], [⟨1, 42, 10, "2021-01-15"⟩,
              ⟨2, 42, 20, "2021-02-10"⟩]⟩ : Db) (some 42)
              ⟨some "2021-02-01", none, none, some "1", none, none⟩).pagination.limit),
         none, none⟩).dataRows
      = (getUserSalesH (⟨[⟨42, "Z", "rep"⟩], [], [], [⟨1, 42, 10, "2021-01-15"⟩,
          ⟨2, 42, 20, "2021-02-10"⟩]⟩ : Db) (some 42)
          ⟨some "2021-02-01", none, none, some "1", none, none⟩).dataRows :=
  ⟨(c8_links_roundtrip_amended _ 42 (some "2021-02-01") none none (some "2021-02-20")
      none (some "1")).1,
   by decide,
   (c8_links_roundtrip_amended _ 42 (some "2021-02-01") none none (some "2021-02-20")
      none (some "1")).2.1 (by decide),
   (c8_links_roundtrip_amended _ 42 (some "2021-02-01") none none (some "2021-02-20")
      none (some "1")).2.2⟩
